import Mathlib

/-!
Verification model of `src/crawl4ai/demo-crawl.py`.

The script is a demo harness over the external `crawl4ai` library: eight
independent asynchronous demo scenarios, each of which opens a crawler
session, issues one or more crawl calls, and renders the returned result
objects to standard output and/or disk files.

The embedding is a shallow one.  Every demo function becomes a Lean
function in explicit state-passing style over a `World` (current working
directory, an association-list filesystem, and a trace of observable
effects).  Python exceptions become `Except PyError`; note that an
exception does not roll back prints or filesystem writes, so demo
functions return `Except PyError Unit × World` with the `World` threaded
through error exits as well.  Behaviour of the external library (the
results of crawl calls and of LLM schema generation) is an oracle
parameter `Ext`, universally quantified in the theorems.
-/

/-- JSON values, the payloads moved between `json.load`, `json.dump` and the
extraction results.  Python dicts/lists become `obj`/`arr`. -/
inductive Json where
  | null
  | bool (b : Bool)
  | num (n : Int)
  | str (s : String)
  | arr (elems : List Json)
  | obj (fields : List (String × Json))

mutual

/-- Rendering of a JSON value to text, standing in for Python's
`json.dumps` (the demo only prints the rendered text; no claim depends on
the exact layout, so the `indent=2` formatting is not reproduced). -/
def jsonDumps : Json → String
  | .null => "null"
  | .bool true => "true"
  | .bool false => "false"
  | .num n => toString n
  | .str s => "\x22" ++ s ++ "\x22"
  | .arr xs => "[" ++ jsonDumpsList xs ++ "]"
  | .obj fs => "\x7b" ++ jsonDumpsFields fs ++ "\x7d"

def jsonDumpsList : List Json → String
  | [] => ""
  | [x] => jsonDumps x
  | x :: xs => jsonDumps x ++ ", " ++ jsonDumpsList xs

def jsonDumpsFields : List (String × Json) → String
  | [] => ""
  | [(k, v)] => "\x22" ++ k ++ "\x22: " ++ jsonDumps v
  | (k, v) :: fs => "\x22" ++ k ++ "\x22: " ++ jsonDumps v ++ ", " ++ jsonDumpsFields fs

end

/-- The `markdown` attribute of a crawl result (`MarkdownGenerationResult`):
the demo reads its `raw_markdown` and `fit_markdown` fields. -/
structure MarkdownResult where
  raw_markdown : String
  fit_markdown : String

/-- A single crawl result as consumed by the demos.  `markdown` is optional
(a failed crawl may carry none; attribute access on `None` raises).
`media`, `links` and `metadata` are Python dicts read via `.get` with a
default; `metadata` is restricted to the integer-valued keys the demo reads
(only `"depth"`). -/
structure CrawlResult where
  url : String
  success : Bool
  markdown : Option MarkdownResult
  extracted_content : Option String
  media : List (String × List Json)
  links : List (String × List Json)
  screenshot : Option String
  pdf : Option (List Nat)
  metadata : List (String × Nat)

/-- The container returned by `AsyncWebCrawler.arun`: iterable over its
results, and attribute access delegates to the first result (raising
`IndexError` when the container is empty). -/
structure CrawlResultContainer where
  results : List CrawlResult

/-- The crawl4ai `CacheMode` enumeration; the demo only ever sets `BYPASS`. -/
inductive CacheMode where
  | enabled
  | disabled
  | readOnly
  | writeOnly
  | bypass
deriving DecidableEq

/-- Content filters passed to the markdown generator; the demo uses
`PruningContentFilter()`. -/
inductive ContentFilter where
  | pruning
deriving DecidableEq

/-- The `DefaultMarkdownGenerator(content_filter=...)` bundle. -/
structure MarkdownGenerator where
  content_filter : Option ContentFilter

/-- The `LLMConfig(provider=..., api_token=...)` bundle. -/
structure LLMConfig where
  provider : String
  api_token : String

/-- Extraction strategies: the schema-less LLM-guided
`LLMExtractionStrategy` (the float `temperature` in `extra_args` is kept as
its literal text) and the `JsonCssExtractionStrategy` built from a schema. -/
inductive ExtractionStrategy where
  | llm (llm_config : LLMConfig) (instruction : String) (extract_type : String)
        (schema : String) (extra_args : List (String × String)) (verbose : Bool)
  | jsonCss (schema : Json)

/-- URL filters for the deep-crawl filter chain; the demo uses
`DomainFilter(allowed_domains=[...])`. -/
inductive UrlFilter where
  | domain (allowed_domains : List String)

/-- The `BFSDeepCrawlStrategy(max_depth=..., max_pages=..., filter_chain=...)`
bundle; the constructor name carries the breadth-first traversal order. -/
structure BFSDeepCrawlStrategy where
  max_depth : Nat
  max_pages : Nat
  filter_chain : List UrlFilter

/-- The per-call `CrawlerRunConfig` bundle; defaults mirror an absent
keyword argument (a crawl call without a config uses this default). -/
structure CrawlerRunConfig where
  markdown_generator : Option MarkdownGenerator := none
  extraction_strategy : Option ExtractionStrategy := none
  deep_crawl_strategy : Option BFSDeepCrawlStrategy := none
  cache_mode : Option CacheMode := none
  screenshot : Bool := false
  pdf : Bool := false
  capture_console_messages : Bool := false

/-- Python exceptions observed by the demos. -/
inductive PyError where
  | keyError (key : String)
  | fileNotFoundError (path : String)
  | indexError
  | attributeError (name : String)
  | typeError
  | libraryError (msg : String)
deriving DecidableEq

/-- Contents of a file on the modelled filesystem.  JSON files store the
`Json` value itself, so `json.dump` followed by `json.load` is the
identity (serialization round-tripping is abstracted). -/
inductive FileContent where
  | text (s : String)
  | json (j : Json)
  | bytes (bs : List Nat)

/-- Observable effects of a demo run, in order of occurrence. -/
inductive Effect where
  | print (s : String)
  | openSession
  | closeSession
  | crawl (url : String) (config : CrawlerRunConfig)
  | crawlMany (urls : List String)
  | envRead (key : String)
  | fileRead (path : String)
  | fileWrite (path : String) (content : FileContent)
  | fileRemove (path : String)
  | schemaGen (query : String)

/-- The mutable state threaded through a demo run: the process working
directory, the filesystem (association list from absolute path to
content), and the effect trace. -/
structure World where
  cwd : String
  fs : List (String × FileContent)
  trace : List Effect

/-- The process environment (`os.environ`). -/
abbrev Env := List (String × String)

def envLookup : Env → String → Option String
  | [], _ => none
  | (k, v) :: rest, key => if k == key then some v else envLookup rest key

def fsGet : List (String × FileContent) → String → Option FileContent
  | [], _ => none
  | (p, c) :: rest, q => if p == q then some c else fsGet rest q

def fsDel (fs : List (String × FileContent)) (p : String) : List (String × FileContent) :=
  fs.filter fun e => !(e.1 == p)

def fsSet (fs : List (String × FileContent)) (p : String) (c : FileContent) :
    List (String × FileContent) :=
  (p, c) :: fsDel fs p

/-- Python's `.get(key, default)` on a dict. -/
def dictGet {α : Type} : List (String × α) → String → α → α
  | [], _, dflt => dflt
  | (k, v) :: rest, key, dflt => if k == key then v else dictGet rest key dflt

/-- String prefix test (over the underlying character list). -/
def strPre (p s : String) : Bool :=
  p.data.isPrefixOf s.data

/-- Relative paths handed to `open` resolve against the process working
directory, absolute paths stand as given. -/
def resolvePath (cwd p : String) : String :=
  if strPre "/" p then p else cwd ++ "/" ++ p

def emit (w : World) (e : Effect) : World :=
  { w with trace := w.trace ++ [e] }

def pr (w : World) (s : String) : World :=
  emit w (.print s)

/-- Python's `str(bool)` rendering used by the `print(f"Success: ...")`
lines. -/
def pyBool : Bool → String
  | true => "True"
  | false => "False"

def writeF (w : World) (p : String) (c : FileContent) : World :=
  let rp := resolvePath w.cwd p
  { emit w (.fileWrite rp c) with fs := fsSet w.fs rp c }

/-- Deleting a file (`os.remove`); raises `FileNotFoundError` when absent. -/
def removeF (w : World) (p : String) : Except PyError Unit × World :=
  let rp := resolvePath w.cwd p
  match fsGet w.fs rp with
  | some _ => (.ok (), { emit w (.fileRemove rp) with fs := fsDel w.fs rp })
  | none => (.error (.fileNotFoundError rp), w)

/-- Opening a file for reading; raises `FileNotFoundError` when absent. -/
def readF (w : World) (p : String) : Except PyError FileContent × World :=
  let rp := resolvePath w.cwd p
  match fsGet w.fs rp with
  | some c => (.ok c, emit w (.fileRead rp))
  | none => (.error (.fileNotFoundError rp), w)

/-- Python's `os.path.exists`. -/
def existsF (w : World) (p : String) : Bool :=
  (fsGet w.fs (resolvePath w.cwd p)).isSome

/-- Indexing `os.environ[key]`; raises `KeyError` when the key is absent. -/
def envGet (env : Env) (w : World) (k : String) : Except PyError String × World :=
  let w := emit w (.envRead k)
  match envLookup env k with
  | some v => (.ok v, w)
  | none => (.error (.keyError k), w)

/-- Behaviour of the external crawl4ai library, an oracle parameter of all
demos: the result of `arun`, of `arun_many`, and of
`JsonCssExtractionStrategy.generate_schema` (arguments: sample html,
llm config, query). -/
structure Crawl4ai where
  arun : String → CrawlerRunConfig → Except PyError CrawlResultContainer
  arun_many : List String → Except PyError (List CrawlResult)
  generate_schema : String → LLMConfig → String → Except PyError Json

def arunOp (ext : Crawl4ai) (w : World) (url : String) (cfg : CrawlerRunConfig) :
    Except PyError CrawlResultContainer × World :=
  (ext.arun url cfg, emit w (.crawl url cfg))

def arunManyOp (ext : Crawl4ai) (w : World) (urls : List String) :
    Except PyError (List CrawlResult) × World :=
  (ext.arun_many urls, emit w (.crawlMany urls))

def generateSchemaOp (ext : Crawl4ai) (w : World) (html : String) (cfg : LLMConfig)
    (query : String) : Except PyError Json × World :=
  (ext.generate_schema html cfg query, emit w (.schemaGen query))

/-- The `async with AsyncWebCrawler() as crawler:` scope: the session is
opened, the body runs, and the session is closed again whether the body
finished normally or raised. -/
def asyncWith {α : Type} (w : World) (body : World → Except PyError α × World) :
    Except PyError α × World :=
  let w1 := emit w .openSession
  let (r, w2) := body w1
  (r, emit w2 .closeSession)

/-- Attribute access on the result container delegates to the first
result, raising `IndexError` on an empty container. -/
def CrawlResultContainer.first (c : CrawlResultContainer) : Except PyError CrawlResult :=
  match c.results with
  | [] => .error .indexError
  | r :: _ => .ok r

/-- Python's `json.load` on an opened file. -/
def jsonLoadFile : FileContent → Except PyError Json
  | .json j => .ok j
  | _ => .error .typeError

/-- Reading an opened file as text (`f.read()`). -/
def fileText : FileContent → Except PyError String
  | .text s => .ok s
  | _ => .error .typeError

/-- Python's `json.loads(result.extracted_content)`.  Raises `TypeError`
when the field is `None`; a successful parse of an actual string is
abstracted as an opaque value (the demos only pretty-print it, and no
claim depends on parse failure of a present string). -/
def jsonLoadsOpt : Option String → Except PyError Json
  | none => .error .typeError
  | some s => .ok (.str s)

/-- Stand-in for `base64.b64decode`; the demos treat the decoded bytes as
opaque, so decoding itself is abstracted by an injective byte rendering. -/
def b64decode (s : String) : List Nat :=
  s.toList.map Char.toNat

/-! Constants of the script: target URLs and configuration bundles. -/

def hnUrl : String := "https://news.ycombinator.com/"

def wikiPythonUrl : String := "https://en.wikipedia.org/wiki/Python_(programming_language)"

def hackerNewsUrl : String := "https://thehackernews.com/"

def deepSeedUrl : String :=
  "https://pawsey.atlassian.net/wiki/spaces/US/pages/51923228/Visualisation+Documentation"

def wikiGraphicsUrl : String := "https://en.wikipedia.org/wiki/Computer_graphics"

def wikiAnteaterUrl : String := "https://en.wikipedia.org/wiki/Giant_anteater"

def parallelUrls : List String :=
  [hnUrl, "https://example.com/", "https://httpbin.org/html"]

/-- An `arun` call without an explicit config runs under the default
`CrawlerRunConfig()`. -/
def defaultRunConfig : CrawlerRunConfig := {}

def fitRunConfig : CrawlerRunConfig :=
  { markdown_generator := some { content_filter := some .pruning } }

def llmProvider : String := "openrouter/deepseek/deepseek-r1-0528-qwen3-8b:free"

/-- The instruction string (two adjacent Python literals joined). -/
def llmInstruction : String :=
  "This is news.ycombinator.com. Extract all news and for each I want title, source url, number of comments."

def llmSchemaShape : String := "\x7btitle: string, url: string, comments: int\x7d"

def llmExtraArgs : List (String × String) :=
  [("max_tokens", "4096"), ("temperature", "0.0")]

def llmStrategy (token : String) : ExtractionStrategy :=
  .llm { provider := llmProvider, api_token := token } llmInstruction "schema"
    llmSchemaShape llmExtraArgs true

def llmRunConfig (token : String) : CrawlerRunConfig :=
  { extraction_strategy := some (llmStrategy token) }

/-- The schema-generation query (two adjacent Python literals joined; the
source has no space between "div" and "with"). -/
def cssQuery : String :=
  "from https://thehackernew.com/, I have shared a sample html of one of the news divwith a title, date, description. Generate a schema for this news div"

def cssRunConfig (schema : Json) : CrawlerRunConfig :=
  { extraction_strategy := some (.jsonCss schema) }

/-- The schema cache path: `os.getcwd() + "tmp/schema.json"` — note the
source concatenates with no path separator. -/
def schemaFilePath (cwd : String) : String := cwd ++ "tmp/schema.json"

def deepFilterChain : List UrlFilter := [.domain ["pawsey.atlassian.net"]]

def deepStrategy : BFSDeepCrawlStrategy :=
  { max_depth := 4, max_pages := 40, filter_chain := deepFilterChain }

def deepRunConfig : CrawlerRunConfig := { deep_crawl_strategy := some deepStrategy }

def ssRunConfig : CrawlerRunConfig := { screenshot := true, pdf := true }

def rawBypassConfig : CrawlerRunConfig := { cache_mode := some .bypass }

def fileBypassConfig : CrawlerRunConfig :=
  { cache_mode := some .bypass, capture_console_messages := true }

/-- The inline sample HTML of the raw/local-file demo. -/
def raw_html : String :=
  "\n    <html><body>\n        <h1>Hello World</h1>\n        <p>This is a paragraph.</p>\n        <img src=\x22https://example.com/image.png\x22 alt=\x22Example image\x22 />\n    </body></html>\n    "

/-- The temporary sample-file path: `os.getcwd() + "/tmp/sample.html"`. -/
def sampleFilePath (cwd : String) : String := cwd ++ "/tmp/sample.html"

/-! The demo scenarios. -/

def basicLoop : Nat → List CrawlResult → World → World
  | _, [], w => w
  | i, r :: rs, w =>
    let w := pr w ("Result " ++ toString (i + 1) ++ ": " ++ r.url)
    let w := pr w ("Success: " ++ pyBool r.success)
    let w :=
      if r.success then
        match r.markdown with
        | some md =>
          let w := pr w ("Markdown length: " ++ toString md.raw_markdown.length ++ " chars")
          if md.raw_markdown == "" then w
          else pr w ("First 100 chars: " ++ md.raw_markdown.take 100 ++ "...")
        | none => w
      else pr w "Failed to crawwl the URL"
    basicLoop (i + 1) rs w

def demo_basic_crawl (ext : Crawl4ai) (w : World) : Except PyError Unit × World :=
  let w := pr w "\n=== 1. Basic crawling ==="
  asyncWith w fun w =>
    let (res, w) := arunOp ext w hnUrl defaultRunConfig
    match res with
    | .error e => (.error e, w)
    | .ok results => (.ok (), basicLoop 0 results.results w)

def parallelLoop : Nat → List CrawlResult → World → World
  | _, [], w => w
  | i, r :: rs, w =>
    let w := pr w ("  " ++ toString (i + 1) ++ ". " ++ r.url ++ " - " ++
      (if r.success then "Success" else "Failed"))
    parallelLoop (i + 1) rs w

def demo_parallel_crawl (ext : Crawl4ai) (w : World) : Except PyError Unit × World :=
  let w := pr w "\n=== 2. Crawl multiple URLs in parallel ==="
  asyncWith w fun w =>
    let (res, w) := arunManyOp ext w parallelUrls
    match res with
    | .error e => (.error e, w)
    | .ok results => (.ok (), parallelLoop 0 results w)

/-- Scenario 3.  The result's markdown fields are read after the session
scope, with no inspection of the success flag; both prints access the
container's `markdown` attribute (delegating to the first result and
raising on a missing markdown). -/
def demo_fit_markdown (ext : Crawl4ai) (w : World) : Except PyError Unit × World :=
  let w := pr w "\n=== 3. Generate focused markdown with LLM content filter ==="
  let (res, w) := asyncWith w fun w => arunOp ext w wikiPythonUrl fitRunConfig
  match res with
  | .error e => (.error e, w)
  | .ok result =>
    match result.first with
    | .error e => (.error e, w)
    | .ok r =>
      match r.markdown with
      | none => (.error (.attributeError "raw_markdown"), w)
      | some md =>
        let w := pr w ("Raw: " ++ toString md.raw_markdown.length ++ " chars")
        let w := pr w ("Fit: " ++ toString md.fit_markdown.length ++ " chars")
        (.ok (), w)

/-- The result-printing loop shared verbatim by scenarios 4 and 5. -/
def extractLoop : List CrawlResult → World → Except PyError Unit × World
  | [], w => (.ok (), w)
  | r :: rs, w =>
    let w := pr w ("Success: " ++ pyBool r.success)
    let w := pr w ("URL: " ++ r.url)
    if r.success then
      match jsonLoadsOpt r.extracted_content with
      | .error e => (.error e, w)
      | .ok data => extractLoop rs (pr w (jsonDumps data))
    else
      extractLoop rs (pr w "Failed to extract structured data")

def demo_llm_structured_extraction_no_schema (env : Env) (ext : Crawl4ai) (w : World) :
    Except PyError Unit × World :=
  let w := pr w "\n=== 4. Create a simple LLM extraction strategy (no schema required) ==="
  let (tok, w) := envGet env w "OPEN_ROUTER_KEY"
  match tok with
  | .error e => (.error e, w)
  | .ok token =>
    let config := llmRunConfig token
    asyncWith w fun w =>
      let (res, w) := arunOp ext w hnUrl config
      match res with
      | .error e => (.error e, w)
      | .ok results => extractLoop results.results w

/-- Lines 123-136 of scenario 5, the continuation once the schema is in
hand: print it, build the CSS extraction strategy from it, crawl, and
print the per-result payloads. -/
def cssExtract (ext : Crawl4ai) (schema : Json) (w : World) : Except PyError Unit × World :=
  let w := pr w ("Generated schema: " ++ jsonDumps schema)
  let config := cssRunConfig schema
  asyncWith w fun w =>
    match arunOp ext w hackerNewsUrl config with
    | (.error e, w) => (.error e, w)
    | (.ok results, w) => extractLoop results.results w

def demo_css_structured_extraction_schema (env : Env) (ext : Crawl4ai) (w : World) :
    Except PyError Unit × World :=
  let schema_file_path := schemaFilePath w.cwd
  if existsF w schema_file_path then
    match readF w schema_file_path with
    | (.error e, w) => (.error e, w)
    | (.ok content, w) =>
      match jsonLoadFile content with
      | .error e => (.error e, w)
      | .ok schema => cssExtract ext schema w
  else
    match readF w "scrape.html" with
    | (.error e, w) => (.error e, w)
    | (.ok content, w) =>
      match fileText content with
      | .error e => (.error e, w)
      | .ok html =>
        match envGet env w "OPEN_ROUTER_KEY" with
        | (.error e, w) => (.error e, w)
        | (.ok token, w) =>
          match generateSchemaOp ext w html
              { provider := llmProvider, api_token := token } cssQuery with
          | (.error e, w) => (.error e, w)
          | (.ok schema, w) =>
            cssExtract ext schema (writeF w schema_file_path (.json schema))

def deepLoop : Nat → List CrawlResult → World → World
  | _, [], w => w
  | i, r :: rs, w =>
    let depth := dictGet r.metadata "depth" 0
    deepLoop (i + 1) rs
      (pr w ("Result " ++ toString (i + 1) ++ ": " ++ r.url ++ " - Depth: " ++ toString depth))

def demo_deep_crawl (ext : Crawl4ai) (w : World) : Except PyError Unit × World :=
  let w := pr w "\n=== 6. Deep crawling with BFS strategy ==="
  asyncWith w fun w =>
    let (res, w) := arunOp ext w deepSeedUrl deepRunConfig
    match res with
    | .error e => (.error e, w)
    | .ok results =>
      let w := pr w ("Deep crawl returned " ++ toString results.results.length ++ " pages")
      (.ok (), deepLoop 0 results.results w)

/-- Scenario 8's loop.  The source iterates `for i, r in enumerate(result)`
but reads `result.media` and `result.links` from the container on every
iteration, never touching `i` or `r`; container attribute access delegates
to the first result (one delegation match stands for the three identical
accesses of each iteration). -/
def mediaLoop (c : CrawlResultContainer) : Nat → List CrawlResult → World →
    Except PyError Unit × World
  | _, [], w => (.ok (), w)
  | i, _ :: rs, w =>
    match c.first with
    | .error e => (.error e, w)
    | .ok r =>
      let images := dictGet r.media "images" []
      let w := pr w ("Found " ++ toString images.length ++ " imagees")
      let internal_links := dictGet r.links "internal" []
      let w := pr w ("Found " ++ toString internal_links.length ++ " internal links")
      let external_links := dictGet r.links "external" []
      let w := pr w ("Found " ++ toString external_links.length ++ " external links")
      let w := writeF w "images.json" (.json (.arr images))
      let w := writeF w "links.json"
        (.json (.obj [("internal", .arr internal_links), ("external", .arr external_links)]))
      mediaLoop c (i + 1) rs w

def demo_media_and_links (ext : Crawl4ai) (w : World) : Except PyError Unit × World :=
  let w := pr w "\n=== 8. Extract media and links from a webpage ==="
  asyncWith w fun w =>
    let (res, w) := arunOp ext w wikiGraphicsUrl defaultRunConfig
    match res with
    | .error e => (.error e, w)
    | .ok result => mediaLoop result 0 result.results w

/-- Scenario 9's screenshot block: `result.screenshot` is a container
attribute access, and `if result.screenshot:` is Python truthiness (skip
on `None` and on the empty string). -/
def ssShot (cur_dir : String) (i : Nat) (r : CrawlResult) (w : World) : World :=
  match r.screenshot with
  | none => w
  | some s =>
    if s == "" then w
    else
      let screenshot_path := cur_dir ++ "/tmp/example-screenshot-" ++ toString i ++ ".png"
      let w := writeF w screenshot_path (.bytes (b64decode s))
      pr w ("Screenshot saved to " ++ screenshot_path)

/-- Scenario 9's PDF block, analogous to the screenshot block. -/
def ssPdf (cur_dir : String) (i : Nat) (r : CrawlResult) (w : World) : World :=
  match r.pdf with
  | none => w
  | some bs =>
    if bs.isEmpty then w
    else
      let pdf_path := cur_dir ++ "/tmp/example-pdf-" ++ toString i ++ ".pdf"
      let w := writeF w pdf_path (.bytes bs)
      pr w ("PDF saved to " ++ pdf_path)

/-- Scenario 9's loop: per iteration the screenshot block runs, then the
PDF block. -/
def ssLoop (c : CrawlResultContainer) (cur_dir : String) : Nat → List CrawlResult →
    World → Except PyError Unit × World
  | _, [], w => (.ok (), w)
  | i, _ :: rs, w =>
    match c.first with
    | .error e => (.error e, w)
    | .ok r => ssLoop c cur_dir (i + 1) rs (ssPdf cur_dir i r (ssShot cur_dir i r w))

def demo_screenshot_and_pdf (ext : Crawl4ai) (w : World) : Except PyError Unit × World :=
  let w := pr w "\n=== 9. Capture screenshots and PDFs from a webpage ==="
  let (res, w) := asyncWith w fun w => arunOp ext w wikiAnteaterUrl ssRunConfig
  match res with
  | .error e => (.error e, w)
  | .ok result =>
    let cur_dir := w.cwd
    ssLoop result cur_dir 0 result.results w

def demo_raw_html_and_file (ext : Crawl4ai) (w : World) : Except PyError Unit × World :=
  let w := pr w "\n=== 11. Process raw HTML and local files ==="
  let file_path := sampleFilePath w.cwd
  let w := writeF w file_path (.text raw_html)
  let (res, w) := asyncWith w fun w =>
    let (rres, w) := arunOp ext w ("raw://" ++ raw_html) rawBypassConfig
    match rres with
    | .error e => (.error e, w)
    | .ok raw_result =>
      match raw_result.first with
      | .error e => (.error e, w)
      | .ok r =>
        let w := pr w ("Success: " ++ pyBool r.success)
        let w := pr w "Raw HTML processing"
        match r.markdown with
        | none => (.error (.attributeError "raw_markdown"), w)
        | some md =>
          let w := pr w ("  Markdown: " ++ md.raw_markdown.take 50)
          let w := pr w file_path
          let (fres, w) := arunOp ext w ("file://" ++ file_path) fileBypassConfig
          match fres with
          | .error e => (.error e, w)
          | .ok file_result =>
            match file_result.first with
            | .error e => (.error e, w)
            | .ok fr =>
              let w := pr w ("Success: " ++ pyBool fr.success)
              let w := pr w "Local file processing"
              match fr.markdown with
              | none => (.error (.attributeError "raw_markdown"), w)
              | some fmd => (.ok (), pr w ("  Markdown: " ++ fmd.raw_markdown.take 50))
  match res with
  | .error e => (.error e, w)
  | .ok _ =>
    let (rm, w) := removeF w file_path
    match rm with
    | .error e => (.error e, w)
    | .ok _ => (.ok (), pr w ("Processsed both raw HTML and local file (" ++ file_path ++ ")"))

/-- The dispatcher (`main` in the source; renamed because Lean reserves
`main`): every call but `demo_deep_crawl` is commented out in the source. -/
def pyMain (ext : Crawl4ai) (w : World) : Except PyError Unit × World :=
  demo_deep_crawl ext w

/-! Trace observables used by the theorems. -/

def isOpenSession : Effect → Bool
  | .openSession => true
  | _ => false

def isCloseSession : Effect → Bool
  | .closeSession => true
  | _ => false

def isSchemaGen : Effect → Bool
  | .schemaGen _ => true
  | _ => false

def crawlEvents (t : List Effect) : List (String × CrawlerRunConfig) :=
  t.filterMap fun e =>
    match e with
    | .crawl u c => some (u, c)
    | _ => none

def envReadsOf (t : List Effect) : List String :=
  t.filterMap fun e =>
    match e with
    | .envRead k => some k
    | _ => none

def printsOf (t : List Effect) : List String :=
  t.filterMap fun e =>
    match e with
    | .print s => some s
    | _ => none

def writesOf (t : List Effect) : List (String × FileContent) :=
  t.filterMap fun e =>
    match e with
    | .fileWrite p c => some (p, c)
    | _ => none

def removesOf (t : List Effect) : List String :=
  t.filterMap fun e =>
    match e with
    | .fileRemove p => some p
    | _ => none

def writesTo (t : List Effect) (p : String) : List FileContent :=
  t.filterMap fun e =>
    match e with
    | .fileWrite q c => if q == p then some c else none
    | _ => none

def cacheBypass : Option CacheMode → Bool
  | some .bypass => true
  | _ => false

def isPrint : Effect → Bool
  | .print _ => true
  | _ => false

def isCrawl : Effect → Bool
  | .crawl _ _ => true
  | .crawlMany _ => true
  | _ => false

/-- Effects a result-rendering loop may emit: prints and file writes only
(no session, crawl, environment or generation events). -/
def quietEff : Effect → Bool
  | .print _ => true
  | .fileWrite _ _ => true
  | _ => false

/-- A fresh world at the start of a demo run: empty trace, arbitrary
working directory and filesystem. -/
def world0 (cwd : String) (fs : List (String × FileContent)) : World :=
  { cwd := cwd, fs := fs, trace := [] }

/-! Concrete inputs used to instantiate the theorems. -/

/-- A successful crawl result with every derived field populated. -/
def sampleResult : CrawlResult :=
  { url := "https://example.com/"
    success := true
    markdown := some { raw_markdown := "abc", fit_markdown := "a" }
    extracted_content := some "payload"
    media := [("images", [Json.str "i1"])]
    links := [("internal", [Json.str "l1"]), ("external", [])]
    screenshot := some "QUJD"
    pdf := some [1, 2, 3]
    metadata := [("depth", 2)] }

/-- A failed crawl result that still carries derived fields. -/
def failedResult : CrawlResult :=
  { url := "https://example.com/"
    success := false
    markdown := some { raw_markdown := "abc", fit_markdown := "a" }
    extracted_content := none
    media := [("images", [Json.str "i1"])]
    links := [("internal", [Json.str "l1"]), ("external", [])]
    screenshot := some "QUJD"
    pdf := some [1, 2, 3]
    metadata := [] }

/-- A failed crawl result carrying no markdown: the shape on which the
raw demo's `raw_result.markdown.raw_markdown` access raises
`AttributeError`. -/
def mdNoneResult : CrawlResult :=
  { url := "https://example.com/"
    success := false
    markdown := none
    extracted_content := none
    media := []
    links := []
    screenshot := none
    pdf := none
    metadata := [] }

/-- The schema value the concrete oracle hands back from generation. -/
def genJson : Json := Json.obj [("name", Json.str "News")]

/-- A library oracle whose crawl calls succeed with the given results. -/
def okExt (rs : List CrawlResult) : Crawl4ai :=
  { arun := fun _ _ => .ok { results := rs }
    arun_many := fun _ => .ok rs
    generate_schema := fun _ _ _ => .ok genJson }

/-- A library oracle whose calls all raise. -/
def errExt : Crawl4ai :=
  { arun := fun _ _ => .error (.libraryError "boom")
    arun_many := fun _ => .error (.libraryError "boom")
    generate_schema := fun _ _ _ => .error (.libraryError "boom") }

/-- An environment holding the one credential the script reads. -/
def env0 : Env := [("OPEN_ROUTER_KEY", "sk-test")]

/-- A scenario run closes as many crawler sessions as it opens: no exit
path leaves an acquired session open.  (A scenario that aborts before the
session scope opens none and closes none.) -/
def sessionsOk (run : Except PyError Unit × World) : Prop :=
  (run.2.trace).countP isCloseSession = (run.2.trace).countP isOpenSession

/-- Every environment variable a scenario run reads is the single
credential key `OPEN_ROUTER_KEY`. -/
def envKeyOnly (run : Except PyError Unit × World) : Prop :=
  ((envReadsOf run.2.trace).all fun k => k == "OPEN_ROUTER_KEY") = true

/-- Every crawl call of a scenario run carries a config whose cache mode
is the bypass mode. -/
def bypassOnly (run : Except PyError Unit × World) : Prop :=
  ((crawlEvents run.2.trace).all fun x => cacheBypass x.2.cache_mode) = true

/-- The five effects one iteration of the media/link loop appends: three
count prints and the two JSON file writes, all computed from the container
delegate `r` (never from the loop item). -/
def mediaChunk (cwd : String) (r : CrawlResult) : List Effect :=
  [.print ("Found " ++ toString (dictGet r.media "images" []).length ++ " imagees"),
   .print ("Found " ++ toString (dictGet r.links "internal" []).length ++ " internal links"),
   .print ("Found " ++ toString (dictGet r.links "external" []).length ++ " external links"),
   .fileWrite (resolvePath cwd "images.json") (.json (.arr (dictGet r.media "images" []))),
   .fileWrite (resolvePath cwd "links.json")
     (.json (.obj [("internal", .arr (dictGet r.links "internal" [])),
                   ("external", .arr (dictGet r.links "external" []))]))]

/-- The media/link loop's whole trace contribution: one identical chunk per
iteration. -/
def mediaChunks (cwd : String) (r : CrawlResult) : Nat → List Effect
  | 0 => []
  | n + 1 => mediaChunk cwd r ++ mediaChunks cwd r n

/-! Helper lemmas: strings, the filesystem, and loop traces. -/

lemma strPre_append_right (p s t : String) (h : strPre p s = true) :
    strPre p (s ++ t) = true := by
  simp only [strPre, String.data_append, List.isPrefixOf_iff_prefix] at h ⊢
  exact h.trans (List.prefix_append _ _)

lemma strPre_cancel (c a b : String) : strPre (c ++ a) (c ++ b) = strPre a b := by
  simp only [strPre, String.data_append]
  induction c.data with
  | nil => rfl
  | cons x xs ih => simpa [List.cons_append, List.isPrefixOf] using ih

lemma strAppend_ne (c a b : String) (h : a ≠ b) : c ++ a ≠ c ++ b := by
  intro he
  apply h
  have h2 : (c ++ a).data = (c ++ b).data := by rw [he]
  rw [String.data_append, String.data_append] at h2
  exact String.ext (List.append_cancel_left h2)

lemma fsGet_fsSet (fs : List (String × FileContent)) (p : String) (c : FileContent) :
    fsGet (fsSet fs p c) p = some c := by
  simp [fsSet, fsGet]

lemma fsGet_fsDel (fs : List (String × FileContent)) (p : String) :
    fsGet (fsDel fs p) p = none := by
  induction fs with
  | nil => rfl
  | cons e fs ih =>
    obtain ⟨k, v⟩ := e
    simp only [fsDel, List.filter_cons]
    cases hk : k == p
    · simpa [fsGet, hk] using ih
    · simpa [fsGet, hk] using ih

section LoopScan

variable {M : Type} (μ : List Effect → M)

lemma mu_pr (hμ : ∀ t e, quietEff e = true → μ (t ++ [e]) = μ t) (w : World) (s : String) :
    μ ((pr w s).trace) = μ w.trace :=
  hμ _ _ rfl

lemma mu_writeF (hμ : ∀ t e, quietEff e = true → μ (t ++ [e]) = μ t) (w : World)
    (p : String) (c : FileContent) : μ ((writeF w p c).trace) = μ w.trace :=
  hμ _ _ rfl

lemma basicLoop_scan (hμ : ∀ t e, quietEff e = true → μ (t ++ [e]) = μ t) :
    ∀ i rs w, μ ((basicLoop i rs w).trace) = μ w.trace := by
  intro i rs
  induction rs generalizing i with
  | nil => intro w; rfl
  | cons r rs ih =>
    intro w
    simp only [basicLoop]
    rw [ih]
    cases hs : r.success
    · simp [hs, mu_pr μ hμ]
    · cases hm : r.markdown with
      | none => simp [hs, hm, mu_pr μ hμ]
      | some md =>
        cases hmd : md.raw_markdown == "" <;> simp [hs, hm, hmd, mu_pr μ hμ]

lemma parallelLoop_scan (hμ : ∀ t e, quietEff e = true → μ (t ++ [e]) = μ t) :
    ∀ i rs w, μ ((parallelLoop i rs w).trace) = μ w.trace := by
  intro i rs
  induction rs generalizing i with
  | nil => intro w; rfl
  | cons r rs ih =>
    intro w
    simp only [parallelLoop]
    rw [ih]
    simp [mu_pr μ hμ]

lemma deepLoop_scan (hμ : ∀ t e, quietEff e = true → μ (t ++ [e]) = μ t) :
    ∀ i rs w, μ ((deepLoop i rs w).trace) = μ w.trace := by
  intro i rs
  induction rs generalizing i with
  | nil => intro w; rfl
  | cons r rs ih =>
    intro w
    simp only [deepLoop]
    rw [ih]
    simp [mu_pr μ hμ]

lemma extractLoop_scan (hμ : ∀ t e, quietEff e = true → μ (t ++ [e]) = μ t) :
    ∀ rs w, μ (((extractLoop rs w).2).trace) = μ w.trace := by
  intro rs
  induction rs with
  | nil => intro w; rfl
  | cons r rs ih =>
    intro w
    simp only [extractLoop]
    cases hs : r.success
    · simp [hs, ih, mu_pr μ hμ]
    · cases hj : jsonLoadsOpt r.extracted_content with
      | error e => simp [hs, hj, mu_pr μ hμ]
      | ok data => simp [hs, hj, ih, mu_pr μ hμ]

lemma mediaLoop_scan (hμ : ∀ t e, quietEff e = true → μ (t ++ [e]) = μ t)
    (c : CrawlResultContainer) :
    ∀ i rs w, μ (((mediaLoop c i rs w).2).trace) = μ w.trace := by
  intro i rs
  induction rs generalizing i with
  | nil => intro w; rfl
  | cons r rs ih =>
    intro w
    simp only [mediaLoop]
    cases hf : c.first with
    | error e => simp [hf]
    | ok r0 => simp [hf, ih, mu_pr μ hμ, mu_writeF μ hμ]

lemma ssShot_scan (hμ : ∀ t e, quietEff e = true → μ (t ++ [e]) = μ t)
    (cur_dir : String) (i : Nat) (r : CrawlResult) (w : World) :
    μ ((ssShot cur_dir i r w).trace) = μ w.trace := by
  unfold ssShot
  cases hss : r.screenshot with
  | none => rfl
  | some s =>
    cases hse : s == "" <;> simp [hse, mu_pr μ hμ, mu_writeF μ hμ]

lemma ssPdf_scan (hμ : ∀ t e, quietEff e = true → μ (t ++ [e]) = μ t)
    (cur_dir : String) (i : Nat) (r : CrawlResult) (w : World) :
    μ ((ssPdf cur_dir i r w).trace) = μ w.trace := by
  unfold ssPdf
  cases hpd : r.pdf with
  | none => rfl
  | some bs =>
    cases hbs : bs.isEmpty <;> simp [hbs, mu_pr μ hμ, mu_writeF μ hμ]

lemma ssLoop_scan (hμ : ∀ t e, quietEff e = true → μ (t ++ [e]) = μ t)
    (c : CrawlResultContainer) (cur_dir : String) :
    ∀ i rs w, μ (((ssLoop c cur_dir i rs w).2).trace) = μ w.trace := by
  intro i rs
  induction rs generalizing i with
  | nil => intro w; rfl
  | cons r rs ih =>
    intro w
    simp only [ssLoop]
    cases hf : c.first with
    | error e => simp [hf]
    | ok r0 => simp [hf, ih, ssShot_scan μ hμ, ssPdf_scan μ hμ]

end LoopScan

/-! Append laws for the trace observables, and instances of the quiet-step
hypothesis of the loop scan lemmas. -/

lemma crawlEvents_append (s t : List Effect) :
    crawlEvents (s ++ t) = crawlEvents s ++ crawlEvents t := by
  simp [crawlEvents]

lemma envReadsOf_append (s t : List Effect) :
    envReadsOf (s ++ t) = envReadsOf s ++ envReadsOf t := by
  simp [envReadsOf]

lemma printsOf_append (s t : List Effect) :
    printsOf (s ++ t) = printsOf s ++ printsOf t := by
  simp [printsOf]

lemma writesOf_append (s t : List Effect) :
    writesOf (s ++ t) = writesOf s ++ writesOf t := by
  simp [writesOf]

lemma removesOf_append (s t : List Effect) :
    removesOf (s ++ t) = removesOf s ++ removesOf t := by
  simp [removesOf]

lemma writesTo_append (s t : List Effect) (p : String) :
    writesTo (s ++ t) p = writesTo s p ++ writesTo t p := by
  simp [writesTo]

lemma hmu_opens : ∀ (t : List Effect) (e : Effect), quietEff e = true →
    (t ++ [e]).countP isOpenSession = t.countP isOpenSession := by
  intro t e he
  cases e <;> simp_all [quietEff, List.countP_append, isOpenSession]

lemma hmu_closes : ∀ (t : List Effect) (e : Effect), quietEff e = true →
    (t ++ [e]).countP isCloseSession = t.countP isCloseSession := by
  intro t e he
  cases e <;> simp_all [quietEff, List.countP_append, isCloseSession]

lemma hmu_gen : ∀ (t : List Effect) (e : Effect), quietEff e = true →
    (t ++ [e]).countP isSchemaGen = t.countP isSchemaGen := by
  intro t e he
  cases e <;> simp_all [quietEff, List.countP_append, isSchemaGen]

lemma hmu_crawlEvents : ∀ (t : List Effect) (e : Effect), quietEff e = true →
    crawlEvents (t ++ [e]) = crawlEvents t := by
  intro t e he
  cases e <;> simp_all [quietEff, crawlEvents]

lemma hmu_envReads : ∀ (t : List Effect) (e : Effect), quietEff e = true →
    envReadsOf (t ++ [e]) = envReadsOf t := by
  intro t e he
  cases e <;> simp_all [quietEff, envReadsOf]

lemma hmu_removes : ∀ (t : List Effect) (e : Effect), quietEff e = true →
    removesOf (t ++ [e]) = removesOf t := by
  intro t e he
  cases e <;> simp_all [quietEff, removesOf]

lemma scan_parallel (ext : Crawl4ai) (cwd : String) (fs : List (String × FileContent)) :
    sessionsOk (demo_parallel_crawl ext (world0 cwd fs)) ∧
    envKeyOnly (demo_parallel_crawl ext (world0 cwd fs)) := by
  unfold sessionsOk envKeyOnly
  simp only [demo_parallel_crawl, asyncWith, arunManyOp, pr, emit, world0]
  cases h : ext.arun_many parallelUrls with
  | error e => exact ⟨rfl, rfl⟩
  | ok rs =>
    refine ⟨?_, ?_⟩
    · simp [List.countP_append, isOpenSession, isCloseSession,
        parallelLoop_scan (fun t => List.countP isOpenSession t) hmu_opens,
        parallelLoop_scan (fun t => List.countP isCloseSession t) hmu_closes]
    · simp only [envReadsOf_append, parallelLoop_scan envReadsOf hmu_envReads]
      rfl

lemma scan_llm (env : Env) (ext : Crawl4ai) (cwd : String) (fs : List (String × FileContent)) :
    sessionsOk (demo_llm_structured_extraction_no_schema env ext (world0 cwd fs)) ∧
    envKeyOnly (demo_llm_structured_extraction_no_schema env ext (world0 cwd fs)) := by
  unfold sessionsOk envKeyOnly
  simp only [demo_llm_structured_extraction_no_schema, asyncWith, arunOp, envGet, pr, emit, world0]
  cases he : envLookup env "OPEN_ROUTER_KEY" with
  | none => exact ⟨rfl, rfl⟩
  | some token =>
    dsimp only
    cases h : ext.arun hnUrl (llmRunConfig token) with
    | error e => exact ⟨rfl, rfl⟩
    | ok c =>
      refine ⟨?_, ?_⟩
      · simp [List.countP_append, isOpenSession, isCloseSession,
          extractLoop_scan (fun t => List.countP isOpenSession t) hmu_opens,
          extractLoop_scan (fun t => List.countP isCloseSession t) hmu_closes]
      · simp only [envReadsOf_append, extractLoop_scan envReadsOf hmu_envReads]
        rfl

lemma scan_deep (ext : Crawl4ai) (cwd : String) (fs : List (String × FileContent)) :
    sessionsOk (demo_deep_crawl ext (world0 cwd fs)) ∧
    envKeyOnly (demo_deep_crawl ext (world0 cwd fs)) := by
  unfold sessionsOk envKeyOnly
  simp only [demo_deep_crawl, asyncWith, arunOp, pr, emit, world0]
  cases h : ext.arun deepSeedUrl deepRunConfig with
  | error e => exact ⟨rfl, rfl⟩
  | ok c =>
    refine ⟨?_, ?_⟩
    · simp [List.countP_append, isOpenSession, isCloseSession,
        deepLoop_scan (fun t => List.countP isOpenSession t) hmu_opens,
        deepLoop_scan (fun t => List.countP isCloseSession t) hmu_closes]
    · simp only [envReadsOf_append, deepLoop_scan envReadsOf hmu_envReads]
      rfl

lemma scan_media (ext : Crawl4ai) (cwd : String) (fs : List (String × FileContent)) :
    sessionsOk (demo_media_and_links ext (world0 cwd fs)) ∧
    envKeyOnly (demo_media_and_links ext (world0 cwd fs)) := by
  unfold sessionsOk envKeyOnly
  simp only [demo_media_and_links, asyncWith, arunOp, pr, emit, world0]
  cases h : ext.arun wikiGraphicsUrl defaultRunConfig with
  | error e => exact ⟨rfl, rfl⟩
  | ok c =>
    refine ⟨?_, ?_⟩
    · simp [List.countP_append, isOpenSession, isCloseSession,
        mediaLoop_scan (fun t => List.countP isOpenSession t) hmu_opens c,
        mediaLoop_scan (fun t => List.countP isCloseSession t) hmu_closes c]
    · simp only [envReadsOf_append, mediaLoop_scan envReadsOf hmu_envReads c]
      rfl

lemma scan_ss (ext : Crawl4ai) (cwd : String) (fs : List (String × FileContent)) :
    sessionsOk (demo_screenshot_and_pdf ext (world0 cwd fs)) ∧
    envKeyOnly (demo_screenshot_and_pdf ext (world0 cwd fs)) := by
  unfold sessionsOk envKeyOnly
  simp only [demo_screenshot_and_pdf, asyncWith, arunOp, pr, emit, world0]
  cases h : ext.arun wikiAnteaterUrl ssRunConfig with
  | error e => exact ⟨rfl, rfl⟩
  | ok c =>
    refine ⟨?_, ?_⟩
    · simp [List.countP_append, isOpenSession, isCloseSession,
        ssLoop_scan (fun t => List.countP isOpenSession t) hmu_opens c cwd,
        ssLoop_scan (fun t => List.countP isCloseSession t) hmu_closes c cwd]
    · simp only [envReadsOf_append, ssLoop_scan envReadsOf hmu_envReads c cwd]
      rfl

lemma scan_raw (ext : Crawl4ai) (cwd : String) (fs : List (String × FileContent)) :
    sessionsOk (demo_raw_html_and_file ext (world0 cwd fs)) ∧
    envKeyOnly (demo_raw_html_and_file ext (world0 cwd fs)) ∧
    bypassOnly (demo_raw_html_and_file ext (world0 cwd fs)) := by
  unfold sessionsOk envKeyOnly bypassOnly
  simp only [demo_raw_html_and_file, asyncWith, arunOp, CrawlResultContainer.first,
    writeF, removeF, pr, emit, world0, sampleFilePath]
  cases h1 : ext.arun ("raw://" ++ raw_html) rawBypassConfig with
  | error e => exact ⟨rfl, rfl, rfl⟩
  | ok c1 =>
    dsimp only
    cases hr1 : c1.results with
    | nil => exact ⟨rfl, rfl, rfl⟩
    | cons r1 t1 =>
      dsimp only
      cases hm1 : r1.markdown with
      | none => exact ⟨rfl, rfl, rfl⟩
      | some md1 =>
        dsimp only
        cases h2 : ext.arun ("file://" ++ (cwd ++ "/tmp/sample.html")) fileBypassConfig with
        | error e => exact ⟨rfl, rfl, rfl⟩
        | ok c2 =>
          dsimp only
          cases hr2 : c2.results with
          | nil => exact ⟨rfl, rfl, rfl⟩
          | cons r2 t2 =>
            dsimp only
            cases hm2 : r2.markdown with
            | none => exact ⟨rfl, rfl, rfl⟩
            | some md2 =>
              rw [fsGet_fsSet]
              refine ⟨?_, ?_, ?_⟩
              · simp [List.countP_append, List.countP_cons, List.countP_nil,
                  isOpenSession, isCloseSession]
              · simp [envReadsOf]
              · simp [crawlEvents, cacheBypass, rawBypassConfig, fileBypassConfig]

lemma scan_css (env : Env) (ext : Crawl4ai) (cwd : String) (fs : List (String × FileContent)) :
    sessionsOk (demo_css_structured_extraction_schema env ext (world0 cwd fs)) ∧
    envKeyOnly (demo_css_structured_extraction_schema env ext (world0 cwd fs)) := by
  unfold sessionsOk envKeyOnly
  simp only [demo_css_structured_extraction_schema, cssExtract, asyncWith, arunOp, envGet,
    generateSchemaOp, existsF, readF, writeF, jsonLoadFile, fileText, pr, emit, world0,
    schemaFilePath]
  cases hex : fsGet fs (resolvePath cwd (cwd ++ "tmp/schema.json")) with
  | some content =>
    simp only [Option.isSome_some, eq_self_iff_true, if_true]
    cases content with
    | text s => exact ⟨rfl, rfl⟩
    | bytes bs => exact ⟨rfl, rfl⟩
    | json j =>
      dsimp only
      cases h : ext.arun hackerNewsUrl (cssRunConfig j) with
      | error e => exact ⟨rfl, rfl⟩
      | ok c =>
        refine ⟨?_, ?_⟩
        · simp [List.countP_append, isOpenSession, isCloseSession,
            extractLoop_scan (fun t => List.countP isOpenSession t) hmu_opens,
            extractLoop_scan (fun t => List.countP isCloseSession t) hmu_closes]
        · simp only [envReadsOf_append, extractLoop_scan envReadsOf hmu_envReads]
          rfl
  | none =>
    simp only [Option.isSome_none, Bool.false_eq_true, if_false]
    cases hs : fsGet fs (resolvePath cwd "scrape.html") with
    | none => exact ⟨rfl, rfl⟩
    | some c2 =>
      dsimp only
      cases c2 with
      | json j2 => exact ⟨rfl, rfl⟩
      | bytes bs => exact ⟨rfl, rfl⟩
      | text html =>
        dsimp only
        cases he : envLookup env "OPEN_ROUTER_KEY" with
        | none => exact ⟨rfl, rfl⟩
        | some token =>
          dsimp only
          cases hg : ext.generate_schema html
              { provider := llmProvider, api_token := token } cssQuery with
          | error e => exact ⟨rfl, rfl⟩
          | ok j =>
            dsimp only
            cases h : ext.arun hackerNewsUrl (cssRunConfig j) with
            | error e => exact ⟨rfl, rfl⟩
            | ok c =>
              refine ⟨?_, ?_⟩
              · simp [List.countP_append, isOpenSession, isCloseSession,
                  extractLoop_scan (fun t => List.countP isOpenSession t) hmu_opens,
                  extractLoop_scan (fun t => List.countP isCloseSession t) hmu_closes]
              · simp only [envReadsOf_append, extractLoop_scan envReadsOf hmu_envReads]
                rfl

lemma scan_basic (ext : Crawl4ai) (cwd : String) (fs : List (String × FileContent)) :
    sessionsOk (demo_basic_crawl ext (world0 cwd fs)) ∧
    envKeyOnly (demo_basic_crawl ext (world0 cwd fs)) := by
  unfold sessionsOk envKeyOnly
  simp only [demo_basic_crawl, asyncWith, arunOp, pr, emit, world0]
  cases h : ext.arun hnUrl defaultRunConfig with
  | error e => exact ⟨rfl, rfl⟩
  | ok c =>
    refine ⟨?_, ?_⟩
    · simp [List.countP_append, isOpenSession, isCloseSession,
        basicLoop_scan (fun t => List.countP isOpenSession t) hmu_opens,
        basicLoop_scan (fun t => List.countP isCloseSession t) hmu_closes]
    · simp only [envReadsOf_append, basicLoop_scan envReadsOf hmu_envReads]
      rfl

lemma scan_fit (ext : Crawl4ai) (cwd : String) (fs : List (String × FileContent)) :
    sessionsOk (demo_fit_markdown ext (world0 cwd fs)) ∧
    envKeyOnly (demo_fit_markdown ext (world0 cwd fs)) := by
  unfold sessionsOk envKeyOnly
  simp only [demo_fit_markdown, asyncWith, arunOp, CrawlResultContainer.first, pr, emit, world0]
  cases h : ext.arun wikiPythonUrl fitRunConfig with
  | error e => exact ⟨rfl, rfl⟩
  | ok c =>
    dsimp only
    cases hr : c.results with
    | nil => exact ⟨rfl, rfl⟩
    | cons r rest =>
      dsimp only
      cases hm : r.markdown with
      | none => exact ⟨rfl, rfl⟩
      | some md => exact ⟨rfl, rfl⟩

/-- C2: every demo scenario releases the crawler session it acquires on
every exit path.  For all nine scenarios and every library behaviour —
including crawl calls and result accesses that raise, which surface here
as error results threaded through the `async with` scope — the run's
trace closes exactly as many crawler sessions as it opens, so no exit
path leaves the session open. -/
theorem sessions_released_every_path (env : Env) (ext : Crawl4ai) (cwd : String)
    (fs : List (String × FileContent)) :
    sessionsOk (demo_basic_crawl ext (world0 cwd fs)) ∧
    sessionsOk (demo_parallel_crawl ext (world0 cwd fs)) ∧
    sessionsOk (demo_fit_markdown ext (world0 cwd fs)) ∧
    sessionsOk (demo_llm_structured_extraction_no_schema env ext (world0 cwd fs)) ∧
    sessionsOk (demo_css_structured_extraction_schema env ext (world0 cwd fs)) ∧
    sessionsOk (demo_deep_crawl ext (world0 cwd fs)) ∧
    sessionsOk (demo_media_and_links ext (world0 cwd fs)) ∧
    sessionsOk (demo_screenshot_and_pdf ext (world0 cwd fs)) ∧
    sessionsOk (demo_raw_html_and_file ext (world0 cwd fs)) :=
  ⟨(scan_basic ext cwd fs).1, (scan_parallel ext cwd fs).1, (scan_fit ext cwd fs).1,
   (scan_llm env ext cwd fs).1, (scan_css env ext cwd fs).1, (scan_deep ext cwd fs).1,
   (scan_media ext cwd fs).1, (scan_ss ext cwd fs).1, (scan_raw ext cwd fs).1⟩

/-- C6: exactly one environment key is read at runtime — every environment
read in every scenario uses the credential key `OPEN_ROUTER_KEY` — and
when that key is absent, the LLM-backed extraction scenario aborts with an
uncaught `KeyError` before issuing any crawl, and the schema scenario's
generation branch (schema file absent, sample page present) aborts with
the same uncaught `KeyError` without ever invoking schema generation; no
default is substituted. -/
theorem env_credential_single_key (env : Env) (ext : Crawl4ai) (cwd : String)
    (fs : List (String × FileContent)) (html : String) :
    (envKeyOnly (demo_basic_crawl ext (world0 cwd fs)) ∧
     envKeyOnly (demo_parallel_crawl ext (world0 cwd fs)) ∧
     envKeyOnly (demo_fit_markdown ext (world0 cwd fs)) ∧
     envKeyOnly (demo_llm_structured_extraction_no_schema env ext (world0 cwd fs)) ∧
     envKeyOnly (demo_css_structured_extraction_schema env ext (world0 cwd fs)) ∧
     envKeyOnly (demo_deep_crawl ext (world0 cwd fs)) ∧
     envKeyOnly (demo_media_and_links ext (world0 cwd fs)) ∧
     envKeyOnly (demo_screenshot_and_pdf ext (world0 cwd fs)) ∧
     envKeyOnly (demo_raw_html_and_file ext (world0 cwd fs))) ∧
    (envLookup env "OPEN_ROUTER_KEY" = none →
      (demo_llm_structured_extraction_no_schema env ext (world0 cwd fs)).1 =
        .error (.keyError "OPEN_ROUTER_KEY") ∧
      crawlEvents (demo_llm_structured_extraction_no_schema env ext (world0 cwd fs)).2.trace
        = []) ∧
    (envLookup env "OPEN_ROUTER_KEY" = none →
      fsGet fs (resolvePath cwd (schemaFilePath cwd)) = none →
      fsGet fs (resolvePath cwd "scrape.html") = some (.text html) →
      (demo_css_structured_extraction_schema env ext (world0 cwd fs)).1 =
        .error (.keyError "OPEN_ROUTER_KEY") ∧
      (demo_css_structured_extraction_schema env ext (world0 cwd fs)).2.trace.countP
        isSchemaGen = 0) := by
  refine ⟨⟨(scan_basic ext cwd fs).2, (scan_parallel ext cwd fs).2, (scan_fit ext cwd fs).2,
    (scan_llm env ext cwd fs).2, (scan_css env ext cwd fs).2, (scan_deep ext cwd fs).2,
    (scan_media ext cwd fs).2, (scan_ss ext cwd fs).2, (scan_raw ext cwd fs).2.1⟩, ?_, ?_⟩
  · intro he
    simp only [demo_llm_structured_extraction_no_schema, envGet, pr, emit, world0, he]
    exact ⟨trivial, rfl⟩
  · intro he hex hs
    simp only [schemaFilePath] at hex
    simp only [demo_css_structured_extraction_schema, existsF, readF, fileText, envGet,
      pr, emit, world0, schemaFilePath, he, hex, hs, Option.isSome_none,
      Bool.false_eq_true, if_false]
    exact ⟨trivial, rfl⟩

/-- Witness for C6: with an empty environment the LLM scenario and the
schema-generation branch both abort with the uncaught `KeyError`. -/
theorem env_credential_single_key_witness :
    envLookup ([] : Env) "OPEN_ROUTER_KEY" = none ∧
    (demo_llm_structured_extraction_no_schema [] (okExt [])
        (world0 "/w" [("/w/scrape.html", FileContent.text "<x>")])).1 =
      .error (.keyError "OPEN_ROUTER_KEY") ∧
    (demo_css_structured_extraction_schema [] (okExt [])
        (world0 "/w" [("/w/scrape.html", FileContent.text "<x>")])).1 =
      .error (.keyError "OPEN_ROUTER_KEY") :=
  ⟨rfl,
   ((env_credential_single_key [] (okExt []) "/w" [("/w/scrape.html", FileContent.text "<x>")]
      "<x>").2.1 rfl).1,
   ((env_credential_single_key [] (okExt []) "/w" [("/w/scrape.html", FileContent.text "<x>")]
      "<x>").2.2 rfl rfl rfl).1⟩

/-- C7: in the raw/local-input scenario every crawl call carries a config
whose cache mode is the bypass mode (for arbitrary library behaviour),
and on a run where both calls return, the two crawl events are exactly
the inline-HTML call and the file-path call, both configured with
`CacheMode.bypass`. -/
theorem raw_demo_cache_bypass (ext : Crawl4ai) (cwd : String)
    (fs : List (String × FileContent)) (c1 c2 : CrawlResultContainer)
    (r1 r2 : CrawlResult) (t1 t2 : List CrawlResult) (m1 m2 : MarkdownResult)
    (h1 : ext.arun ("raw://" ++ raw_html) rawBypassConfig = .ok c1)
    (hr1 : c1.results = r1 :: t1) (hm1 : r1.markdown = some m1)
    (h2 : ext.arun ("file://" ++ sampleFilePath cwd) fileBypassConfig = .ok c2)
    (hr2 : c2.results = r2 :: t2) (hm2 : r2.markdown = some m2) :
    bypassOnly (demo_raw_html_and_file ext (world0 cwd fs)) ∧
    crawlEvents (demo_raw_html_and_file ext (world0 cwd fs)).2.trace =
      [("raw://" ++ raw_html, rawBypassConfig),
       ("file://" ++ sampleFilePath cwd, fileBypassConfig)] ∧
    rawBypassConfig.cache_mode = some CacheMode.bypass ∧
    fileBypassConfig.cache_mode = some CacheMode.bypass := by
  refine ⟨(scan_raw ext cwd fs).2.2, ?_, rfl, rfl⟩
  simp only [sampleFilePath] at h2
  simp only [demo_raw_html_and_file, asyncWith, arunOp, CrawlResultContainer.first,
    writeF, removeF, pr, emit, world0, sampleFilePath, h1, hr1, hm1, h2, hr2, hm2,
    fsGet_fsSet]
  simp [crawlEvents]

/-- Witness for C7 at a concrete oracle on which both crawls succeed. -/
theorem raw_demo_cache_bypass_witness :
    crawlEvents (demo_raw_html_and_file (okExt [sampleResult]) (world0 "/w" [])).2.trace =
      [("raw://" ++ raw_html, rawBypassConfig),
       ("file://" ++ sampleFilePath "/w", fileBypassConfig)] :=
  (raw_demo_cache_bypass (okExt [sampleResult]) "/w" []
    { results := [sampleResult] } { results := [sampleResult] }
    sampleResult sampleResult [] [] { raw_markdown := "abc", fit_markdown := "a" }
    { raw_markdown := "abc", fit_markdown := "a" }
    rfl rfl rfl rfl rfl rfl).2.1

/-- C5: a normally-completing run of the raw/local-file demo writes the
temporary HTML sample file and removes that same path, leaving the file
absent from the final filesystem. -/
theorem raw_demo_temp_file_cleanup (ext : Crawl4ai) (cwd : String)
    (fs : List (String × FileContent)) (c1 c2 : CrawlResultContainer)
    (r1 r2 : CrawlResult) (t1 t2 : List CrawlResult) (m1 m2 : MarkdownResult)
    (h1 : ext.arun ("raw://" ++ raw_html) rawBypassConfig = .ok c1)
    (hr1 : c1.results = r1 :: t1) (hm1 : r1.markdown = some m1)
    (h2 : ext.arun ("file://" ++ sampleFilePath cwd) fileBypassConfig = .ok c2)
    (hr2 : c2.results = r2 :: t2) (hm2 : r2.markdown = some m2) :
    (demo_raw_html_and_file ext (world0 cwd fs)).1 = .ok () ∧
    writesTo (demo_raw_html_and_file ext (world0 cwd fs)).2.trace
      (resolvePath cwd (sampleFilePath cwd)) = [.text raw_html] ∧
    removesOf (demo_raw_html_and_file ext (world0 cwd fs)).2.trace =
      [resolvePath cwd (sampleFilePath cwd)] ∧
    fsGet (demo_raw_html_and_file ext (world0 cwd fs)).2.fs
      (resolvePath cwd (sampleFilePath cwd)) = none := by
  simp only [sampleFilePath] at h2 ⊢
  simp only [demo_raw_html_and_file, asyncWith, arunOp, CrawlResultContainer.first,
    writeF, removeF, pr, emit, world0, sampleFilePath, h1, hr1, hm1, h2, hr2, hm2,
    fsGet_fsSet]
  refine ⟨trivial, ?_, ?_, ?_⟩
  · simp [writesTo]
  · simp [removesOf]
  · exact fsGet_fsDel _ _

/-- Witness for C5 at a concrete oracle on which the demo completes. -/
theorem raw_demo_temp_file_cleanup_witness :
    (demo_raw_html_and_file (okExt [sampleResult]) (world0 "/w" [])).1 = .ok () ∧
    fsGet (demo_raw_html_and_file (okExt [sampleResult]) (world0 "/w" [])).2.fs
      (resolvePath "/w" (sampleFilePath "/w")) = none :=
  ⟨(raw_demo_temp_file_cleanup (okExt [sampleResult]) "/w" []
      { results := [sampleResult] } { results := [sampleResult] }
      sampleResult sampleResult [] [] { raw_markdown := "abc", fit_markdown := "a" }
      { raw_markdown := "abc", fit_markdown := "a" } rfl rfl rfl rfl rfl rfl).1,
   (raw_demo_temp_file_cleanup (okExt [sampleResult]) "/w" []
      { results := [sampleResult] } { results := [sampleResult] }
      sampleResult sampleResult [] [] { raw_markdown := "abc", fit_markdown := "a" }
      { raw_markdown := "abc", fit_markdown := "a" } rfl rfl rfl rfl rfl rfl).2.2.2⟩

/-- C10: the temporary-file removal in the raw/local-file demo runs only
on the normal-completion path.  On every run that exits with an error —
whichever crawl call or result access inside the session scope raised it
(a raising crawl, an empty result container, or a result without
markdown, for either of the two calls) — no removal event occurs and the
sample file written at the start is still on the final filesystem. -/
theorem raw_demo_file_leaks_on_error (ext : Crawl4ai) (cwd : String)
    (fs : List (String × FileContent)) (e : PyError)
    (h : (demo_raw_html_and_file ext (world0 cwd fs)).1 = .error e) :
    fsGet (demo_raw_html_and_file ext (world0 cwd fs)).2.fs
      (resolvePath cwd (sampleFilePath cwd)) = some (.text raw_html) ∧
    removesOf (demo_raw_html_and_file ext (world0 cwd fs)).2.trace = [] := by
  revert h
  simp only [demo_raw_html_and_file, asyncWith, arunOp, CrawlResultContainer.first,
    writeF, removeF, pr, emit, world0, sampleFilePath]
  cases h1 : ext.arun ("raw://" ++ raw_html) rawBypassConfig with
  | error e2 => intro h; exact ⟨fsGet_fsSet fs _ _, rfl⟩
  | ok c1 =>
    dsimp only
    cases hr1 : c1.results with
    | nil => intro h; exact ⟨fsGet_fsSet fs _ _, rfl⟩
    | cons r1 t1 =>
      dsimp only
      cases hm1 : r1.markdown with
      | none => intro h; exact ⟨fsGet_fsSet fs _ _, rfl⟩
      | some md1 =>
        dsimp only
        cases h2 : ext.arun ("file://" ++ (cwd ++ "/tmp/sample.html"))
            fileBypassConfig with
        | error e2 => intro h; exact ⟨fsGet_fsSet fs _ _, rfl⟩
        | ok c2 =>
          dsimp only
          cases hr2 : c2.results with
          | nil => intro h; exact ⟨fsGet_fsSet fs _ _, rfl⟩
          | cons r2 t2 =>
            dsimp only
            cases hm2 : r2.markdown with
            | none => intro h; exact ⟨fsGet_fsSet fs _ _, rfl⟩
            | some md2 =>
              rw [fsGet_fsSet]
              intro h
              simp at h

/-- Witness for C10 at two raising shapes: an oracle whose crawl call
raises, and an oracle returning a failed result without markdown (the
shape on which the result access raises `AttributeError`); both leave
the sample file behind with no removal. -/
theorem raw_demo_file_leaks_on_error_witness :
    (fsGet (demo_raw_html_and_file errExt (world0 "/w" [])).2.fs
        (resolvePath "/w" (sampleFilePath "/w")) = some (.text raw_html) ∧
      removesOf (demo_raw_html_and_file errExt (world0 "/w" [])).2.trace = []) ∧
    (fsGet (demo_raw_html_and_file (okExt [mdNoneResult]) (world0 "/w" [])).2.fs
        (resolvePath "/w" (sampleFilePath "/w")) = some (.text raw_html) ∧
      removesOf (demo_raw_html_and_file (okExt [mdNoneResult])
        (world0 "/w" [])).2.trace = []) :=
  ⟨raw_demo_file_leaks_on_error errExt "/w" [] (.libraryError "boom") rfl,
   raw_demo_file_leaks_on_error (okExt [mdNoneResult]) "/w" []
     (.attributeError "raw_markdown") rfl⟩

lemma hmu_isCrawl : ∀ (t : List Effect) (e : Effect), quietEff e = true →
    (t ++ [e]).countP isCrawl = t.countP isCrawl := by
  intro t e he
  cases e <;> simp_all [quietEff, List.countP_append, isCrawl]

lemma deepLoop_prints : ∀ (i : Nat) (rs : List CrawlResult) (w : World),
    printsOf ((deepLoop i rs w).trace) =
      printsOf w.trace ++ (List.enumFrom i rs).map (fun p =>
        "Result " ++ toString (p.1 + 1) ++ ": " ++ p.2.url ++ " - Depth: " ++
          toString (dictGet p.2.metadata "depth" 0)) := by
  intro i rs
  induction rs generalizing i with
  | nil => intro w; simp [deepLoop, List.enumFrom]
  | cons r rs ih =>
    intro w
    simp only [deepLoop]
    rw [ih]
    simp [List.enumFrom, printsOf_append, printsOf, pr, emit]

/-- C8: the deep-crawl scenario issues exactly one crawl call, against the
seed URL, configured with a breadth-first strategy of maximum depth 4,
maximum page count 40, and a filter chain holding the domain allow-list;
and it prints the number of returned results followed by, for each result
in order, its traversal depth read from the result's metadata with
default 0. -/
theorem deep_crawl_bfs_config_and_report (ext : Crawl4ai) (cwd : String)
    (fs : List (String × FileContent)) (c : CrawlResultContainer)
    (h : ext.arun deepSeedUrl deepRunConfig = .ok c) :
    crawlEvents (demo_deep_crawl ext (world0 cwd fs)).2.trace =
      [(deepSeedUrl, deepRunConfig)] ∧
    (demo_deep_crawl ext (world0 cwd fs)).2.trace.countP isCrawl = 1 ∧
    deepRunConfig.deep_crawl_strategy = some
      { max_depth := 4, max_pages := 40,
        filter_chain := [UrlFilter.domain ["pawsey.atlassian.net"]] } ∧
    printsOf (demo_deep_crawl ext (world0 cwd fs)).2.trace =
      ["\n=== 6. Deep crawling with BFS strategy ===",
       "Deep crawl returned " ++ toString c.results.length ++ " pages"] ++
      (List.enumFrom 0 c.results).map (fun p =>
        "Result " ++ toString (p.1 + 1) ++ ": " ++ p.2.url ++ " - Depth: " ++
          toString (dictGet p.2.metadata "depth" 0)) := by
  simp only [demo_deep_crawl, asyncWith, arunOp, pr, emit, world0, h]
  refine ⟨?_, ?_, rfl, ?_⟩
  · simp only [crawlEvents_append, deepLoop_scan crawlEvents hmu_crawlEvents]
    rfl
  · simp [List.countP_append, isCrawl,
      deepLoop_scan (fun t => List.countP isCrawl t) hmu_isCrawl]
  · simp only [printsOf_append, deepLoop_prints]
    simp [printsOf]

/-- Witness for C8 at a concrete oracle returning one depth-2 result. -/
theorem deep_crawl_bfs_config_and_report_witness :
    printsOf (demo_deep_crawl (okExt [sampleResult]) (world0 "/w" [])).2.trace =
      ["\n=== 6. Deep crawling with BFS strategy ===",
       "Deep crawl returned " ++ toString (1 : Nat) ++ " pages",
       "Result " ++ toString (1 : Nat) ++ ": " ++ "https://example.com/" ++ " - Depth: " ++
         toString (2 : Nat)] := by
  have h := (deep_crawl_bfs_config_and_report (okExt [sampleResult]) "/w" []
    { results := [sampleResult] } rfl).2.2.2
  simpa [sampleResult, List.enumFrom, dictGet] using h

lemma mediaLoop_run (c : CrawlResultContainer) (r : CrawlResult) (hf : c.first = .ok r) :
    ∀ (i : Nat) (rs : List CrawlResult) (w : World),
      (mediaLoop c i rs w).1 = .ok () ∧
      (mediaLoop c i rs w).2.cwd = w.cwd ∧
      (mediaLoop c i rs w).2.trace = w.trace ++ mediaChunks w.cwd r rs.length := by
  intro i rs
  induction rs generalizing i with
  | nil => intro w; exact ⟨rfl, rfl, by simp [mediaLoop, mediaChunks]⟩
  | cons r2 rs ih =>
    intro w
    simp only [mediaLoop, hf]
    refine ⟨(ih (i + 1) _).1, ?_, ?_⟩
    · rw [(ih (i + 1) _).2.1]
      rfl
    · rw [(ih (i + 1) _).2.2]
      simp [mediaChunks, mediaChunk, pr, emit, writeF, List.append_assoc]

lemma writesTo_mediaChunks_images (cwd : String) (r : CrawlResult) :
    ∀ n, writesTo (mediaChunks cwd r n) (resolvePath cwd "images.json") =
      List.replicate n (FileContent.json (.arr (dictGet r.media "images" []))) := by
  have hne0 : resolvePath cwd "links.json" ≠ resolvePath cwd "images.json" := by
    show (cwd ++ "/") ++ "links.json" ≠ (cwd ++ "/") ++ "images.json"
    exact strAppend_ne _ _ _ (by decide)
  intro n
  induction n with
  | zero => rfl
  | succ n ih =>
    simp only [mediaChunks, writesTo_append, ih, List.replicate_succ]
    simp [mediaChunk, writesTo, hne0]

lemma writesTo_mediaChunks_links (cwd : String) (r : CrawlResult) :
    ∀ n, writesTo (mediaChunks cwd r n) (resolvePath cwd "links.json") =
      List.replicate n (FileContent.json (.obj
        [("internal", .arr (dictGet r.links "internal" [])),
         ("external", .arr (dictGet r.links "external" []))])) := by
  have hne0 : resolvePath cwd "images.json" ≠ resolvePath cwd "links.json" := by
    show (cwd ++ "/") ++ "images.json" ≠ (cwd ++ "/") ++ "links.json"
    exact strAppend_ne _ _ _ (by decide)
  intro n
  induction n with
  | zero => rfl
  | succ n ih =>
    simp only [mediaChunks, writesTo_append, ih, List.replicate_succ]
    simp [mediaChunk, writesTo, hne0]

/-- C9: in the media/link demo every loop iteration reads the image and
link collections from the container object, not from the loop item, so
each of the n iterations writes the same content — a function of the
container's first result only — to images.json and to links.json. -/
theorem media_demo_writes_container_content (ext : Crawl4ai) (cwd : String)
    (fs : List (String × FileContent)) (c : CrawlResultContainer)
    (r : CrawlResult) (rs : List CrawlResult)
    (h : ext.arun wikiGraphicsUrl defaultRunConfig = .ok c)
    (hr : c.results = r :: rs) :
    writesTo (demo_media_and_links ext (world0 cwd fs)).2.trace
        (resolvePath cwd "images.json") =
      List.replicate (r :: rs).length
        (FileContent.json (.arr (dictGet r.media "images" []))) ∧
    writesTo (demo_media_and_links ext (world0 cwd fs)).2.trace
        (resolvePath cwd "links.json") =
      List.replicate (r :: rs).length
        (FileContent.json (.obj
          [("internal", .arr (dictGet r.links "internal" [])),
           ("external", .arr (dictGet r.links "external" []))])) := by
  have hf : c.first = .ok r := by simp [CrawlResultContainer.first, hr]
  simp only [demo_media_and_links, asyncWith, arunOp, pr, emit, world0, h, hr]
  constructor
  · rw [(mediaLoop_run c r hf 0 (r :: rs) _).2.2]
    simp only [writesTo_append, writesTo_mediaChunks_images]
    simp [writesTo]
  · rw [(mediaLoop_run c r hf 0 (r :: rs) _).2.2]
    simp only [writesTo_append, writesTo_mediaChunks_links]
    simp [writesTo]

/-- Witness for C9 at a one-result container. -/
theorem media_demo_writes_container_content_witness :
    writesTo (demo_media_and_links (okExt [sampleResult]) (world0 "/w" [])).2.trace
        (resolvePath "/w" "images.json") =
      [FileContent.json (.arr [Json.str "i1"])] := by
  have h := (media_demo_writes_container_content (okExt [sampleResult]) "/w" []
    { results := [sampleResult] } sampleResult [] rfl rfl).1
  simpa [sampleResult, dictGet] using h

lemma writesOf_append_prints (t l : List Effect) (h : l.all isPrint = true) :
    writesOf (t ++ l) = writesOf t := by
  induction l generalizing t with
  | nil => simp
  | cons e l ih =>
    simp only [List.all_cons, Bool.and_eq_true] at h
    rw [show t ++ e :: l = (t ++ [e]) ++ l from by simp, ih _ h.2]
    cases e <;> simp_all [isPrint, writesOf]

lemma writesTo_append_prints (t l : List Effect) (p : String) (h : l.all isPrint = true) :
    writesTo (t ++ l) p = writesTo t p := by
  induction l generalizing t with
  | nil => simp
  | cons e l ih =>
    simp only [List.all_cons, Bool.and_eq_true] at h
    rw [show t ++ e :: l = (t ++ [e]) ++ l from by simp, ih _ h.2]
    cases e <;> simp_all [isPrint, writesTo]

lemma extractLoop_trace_extend : ∀ (rs : List CrawlResult) (w : World),
    ∃ l, ((extractLoop rs w).2).trace = w.trace ++ l ∧ l.all isPrint = true := by
  intro rs
  induction rs with
  | nil => intro w; exact ⟨[], by simp [extractLoop], rfl⟩
  | cons r rs ih =>
    intro w
    simp only [extractLoop]
    cases hs : r.success
    · obtain ⟨l, hl, hp⟩ := ih (pr (pr (pr w ("Success: " ++ pyBool false)) ("URL: " ++ r.url))
        "Failed to extract structured data")
      refine ⟨[.print ("Success: " ++ pyBool false), .print ("URL: " ++ r.url),
        .print "Failed to extract structured data"] ++ l, ?_, ?_⟩
      · simp only [Bool.false_eq_true, if_false]
        rw [hl]
        simp [pr, emit, List.append_assoc]
      · simp [hp, isPrint]
    · cases hj : jsonLoadsOpt r.extracted_content with
      | error e =>
        refine ⟨[.print ("Success: " ++ pyBool true), .print ("URL: " ++ r.url)], ?_, rfl⟩
        simp only [eq_self_iff_true, if_true, hj]
        simp [pr, emit, List.append_assoc]
      | ok data =>
        obtain ⟨l, hl, hp⟩ := ih (pr (pr (pr w ("Success: " ++ pyBool true)) ("URL: " ++ r.url))
          (jsonDumps data))
        refine ⟨[.print ("Success: " ++ pyBool true), .print ("URL: " ++ r.url),
          .print (jsonDumps data)] ++ l, ?_, ?_⟩
        · simp only [eq_self_iff_true, if_true, hj]
          rw [hl]
          simp [pr, emit, List.append_assoc]
        · simp [hp, isPrint]

lemma extractLoop_writesOf : ∀ (rs : List CrawlResult) (w : World),
    writesOf ((extractLoop rs w).2.trace) = writesOf w.trace := by
  intro rs w
  obtain ⟨l, hl, hp⟩ := extractLoop_trace_extend rs w
  rw [hl, writesOf_append_prints _ _ hp]

lemma extractLoop_writesTo (p : String) : ∀ (rs : List CrawlResult) (w : World),
    writesTo ((extractLoop rs w).2.trace) p = writesTo w.trace p := by
  intro rs w
  obtain ⟨l, hl, hp⟩ := extractLoop_trace_extend rs w
  rw [hl, writesTo_append_prints _ _ _ hp]

lemma extractLoop_close_extend : ∀ (rs : List CrawlResult) (w : World),
    ∃ l, ((extractLoop rs w).2).trace ++ [Effect.closeSession] = w.trace ++ l := by
  intro rs w
  obtain ⟨l, hl, _⟩ := extractLoop_trace_extend rs w
  exact ⟨l ++ [.closeSession], by rw [hl, List.append_assoc]⟩

/-- C3: in the schema-based extraction scenario, if the schema file exists
on disk holding a JSON value, that exact value is the schema the crawl's
extraction strategy is built from, no schema generation (and no
environment read, no file write) occurs; if the file does not exist, the
scenario reads the local sample page, generates a schema from it, writes
that schema to the same file — before the session opens and the crawl
carrying the strategy built from it is issued — and extracts with it. -/
theorem css_schema_cache_or_generate (env : Env) (ext : Crawl4ai) (cwd : String)
    (fs : List (String × FileContent)) (j : Json) (html token : String) :
    (fsGet fs (resolvePath cwd (schemaFilePath cwd)) = some (.json j) →
      (demo_css_structured_extraction_schema env ext (world0 cwd fs)).2.trace.countP
        isSchemaGen = 0 ∧
      envReadsOf (demo_css_structured_extraction_schema env ext (world0 cwd fs)).2.trace
        = [] ∧
      crawlEvents (demo_css_structured_extraction_schema env ext (world0 cwd fs)).2.trace
        = [(hackerNewsUrl, cssRunConfig j)] ∧
      writesOf (demo_css_structured_extraction_schema env ext (world0 cwd fs)).2.trace
        = [] ∧
      ∃ rest, (demo_css_structured_extraction_schema env ext (world0 cwd fs)).2.trace =
        [.fileRead (resolvePath cwd (cwd ++ "tmp/schema.json")),
         .print ("Generated schema: " ++ jsonDumps j), .openSession,
         .crawl hackerNewsUrl (cssRunConfig j)] ++ rest) ∧
    (fsGet fs (resolvePath cwd (schemaFilePath cwd)) = none →
      fsGet fs (resolvePath cwd "scrape.html") = some (.text html) →
      envLookup env "OPEN_ROUTER_KEY" = some token →
      ext.generate_schema html { provider := llmProvider, api_token := token } cssQuery
        = .ok j →
      (demo_css_structured_extraction_schema env ext (world0 cwd fs)).2.trace.countP
        isSchemaGen = 1 ∧
      writesTo (demo_css_structured_extraction_schema env ext (world0 cwd fs)).2.trace
        (resolvePath cwd (cwd ++ "tmp/schema.json")) = [.json j] ∧
      crawlEvents (demo_css_structured_extraction_schema env ext (world0 cwd fs)).2.trace
        = [(hackerNewsUrl, cssRunConfig j)] ∧
      ∃ rest, (demo_css_structured_extraction_schema env ext (world0 cwd fs)).2.trace =
        [.fileRead (resolvePath cwd "scrape.html"), .envRead "OPEN_ROUTER_KEY",
         .schemaGen cssQuery,
         .fileWrite (resolvePath cwd (cwd ++ "tmp/schema.json")) (.json j),
         .print ("Generated schema: " ++ jsonDumps j), .openSession,
         .crawl hackerNewsUrl (cssRunConfig j)] ++ rest) := by
  constructor
  · intro hex
    simp only [schemaFilePath] at hex
    simp only [demo_css_structured_extraction_schema, cssExtract, asyncWith, arunOp, envGet,
      generateSchemaOp, existsF, readF, writeF, jsonLoadFile, fileText, pr, emit, world0,
      schemaFilePath, hex, Option.isSome_some, eq_self_iff_true, if_true]
    cases h : ext.arun hackerNewsUrl (cssRunConfig j) with
    | error e => exact ⟨rfl, rfl, rfl, rfl, [.closeSession], rfl⟩
    | ok c =>
      refine ⟨?_, ?_, ?_, ?_, ?_⟩
      · simp [List.countP_append, isSchemaGen,
          extractLoop_scan (fun t => List.countP isSchemaGen t) hmu_gen]
      · simp only [envReadsOf_append, extractLoop_scan envReadsOf hmu_envReads]
        rfl
      · simp only [crawlEvents_append, extractLoop_scan crawlEvents hmu_crawlEvents]
        rfl
      · simp only [writesOf_append, extractLoop_writesOf]
        rfl
      · exact extractLoop_close_extend c.results _
  · intro hex hs he hg
    simp only [schemaFilePath] at hex
    simp only [demo_css_structured_extraction_schema, cssExtract, asyncWith, arunOp, envGet,
      generateSchemaOp, existsF, readF, writeF, jsonLoadFile, fileText, pr, emit, world0,
      schemaFilePath, hex, hs, he, hg, Option.isSome_none, Bool.false_eq_true, if_false]
    cases h : ext.arun hackerNewsUrl (cssRunConfig j) with
    | error e =>
      refine ⟨rfl, ?_, rfl, [.closeSession], rfl⟩
      simp [writesTo]
    | ok c =>
      refine ⟨?_, ?_, ?_, ?_⟩
      · simp [List.countP_append, isSchemaGen,
          extractLoop_scan (fun t => List.countP isSchemaGen t) hmu_gen]
      · simp only [writesTo_append, extractLoop_writesTo]
        simp [writesTo]
      · simp only [crawlEvents_append, extractLoop_scan crawlEvents hmu_crawlEvents]
        rfl
      · exact extractLoop_close_extend c.results _

/-- Witness for C3: a cache-hit run reuses the stored schema for the
crawl's extraction strategy, and a generation run persists the generated
schema to the concatenated cache path. -/
theorem css_schema_cache_or_generate_witness :
    crawlEvents (demo_css_structured_extraction_schema env0 (okExt [sampleResult])
        (world0 "/w" [("/wtmp/schema.json", FileContent.json genJson)])).2.trace =
      [(hackerNewsUrl, cssRunConfig genJson)] ∧
    writesTo (demo_css_structured_extraction_schema env0 (okExt [sampleResult])
        (world0 "/w" [("/w/scrape.html", FileContent.text "<div></div>")])).2.trace
      (resolvePath "/w" ("/w" ++ "tmp/schema.json")) = [.json genJson] :=
  ⟨((css_schema_cache_or_generate env0 (okExt [sampleResult]) "/w"
      [("/wtmp/schema.json", FileContent.json genJson)] genJson "x" "x").1 rfl).2.2.1,
   ((css_schema_cache_or_generate env0 (okExt [sampleResult]) "/w"
      [("/w/scrape.html", FileContent.text "<div></div>")] genJson "<div></div>"
      "sk-test").2 rfl rfl rfl rfl).2.1⟩

/-- Counterexample to C1 as stated: on a failed crawl result (success
flag false) the filtered-markdown scenario performs no boolean branch on
the success flag — it prints no failure message and still reads and
reports the derived markdown fields. -/
theorem fit_markdown_ignores_success_flag :
    failedResult.success = false ∧
    printsOf (demo_fit_markdown (okExt [failedResult]) (world0 "/w" [])).2.trace =
      ["\n=== 3. Generate focused markdown with LLM content filter ===",
       "Raw: " ++ toString (3 : Nat) ++ " chars",
       "Fit: " ++ toString (1 : Nat) ++ " chars"] :=
  ⟨rfl, rfl⟩

/-- Amended C1: the four scenarios that branch on the success flag —
basic, parallel, LLM extraction and CSS extraction — each handle a failed
result with exactly one failure-message print and no retry (a single
crawl call), reading no derived fields; but the filtered-markdown and
media/link scenarios read and output derived fields of a failed result
without any success branch, and the screenshot and raw/local scenarios
likewise proceed with derived fields regardless of the flag. -/
theorem failure_handled_by_single_branch_amended (r : CrawlResult) (md : MarkdownResult)
    (hr : r.success = false) (hm : r.markdown = some md) :
    printsOf (demo_basic_crawl (okExt [r]) (world0 "/w" [])).2.trace =
      ["\n=== 1. Basic crawling ===", "Result 1: " ++ r.url, "Success: False",
       "Failed to crawwl the URL"] ∧
    crawlEvents (demo_basic_crawl (okExt [r]) (world0 "/w" [])).2.trace =
      [(hnUrl, defaultRunConfig)] ∧
    printsOf (demo_parallel_crawl (okExt [r]) (world0 "/w" [])).2.trace =
      ["\n=== 2. Crawl multiple URLs in parallel ===", "  1. " ++ r.url ++ " - " ++ "Failed"] ∧
    printsOf (demo_llm_structured_extraction_no_schema env0 (okExt [r])
        (world0 "/w" [])).2.trace =
      ["\n=== 4. Create a simple LLM extraction strategy (no schema required) ===",
       "Success: False", "URL: " ++ r.url, "Failed to extract structured data"] ∧
    crawlEvents (demo_llm_structured_extraction_no_schema env0 (okExt [r])
        (world0 "/w" [])).2.trace = [(hnUrl, llmRunConfig "sk-test")] ∧
    printsOf (demo_css_structured_extraction_schema env0 (okExt [r])
        (world0 "/w" [("/wtmp/schema.json", FileContent.json genJson)])).2.trace =
      ["Generated schema: " ++ jsonDumps genJson, "Success: False", "URL: " ++ r.url,
       "Failed to extract structured data"] ∧
    printsOf (demo_fit_markdown (okExt [r]) (world0 "/w" [])).2.trace =
      ["\n=== 3. Generate focused markdown with LLM content filter ===",
       "Raw: " ++ toString md.raw_markdown.length ++ " chars",
       "Fit: " ++ toString md.fit_markdown.length ++ " chars"] ∧
    printsOf (demo_media_and_links (okExt [r]) (world0 "/w" [])).2.trace =
      ["\n=== 8. Extract media and links from a webpage ===",
       "Found " ++ toString (dictGet r.media "images" []).length ++ " imagees",
       "Found " ++ toString (dictGet r.links "internal" []).length ++ " internal links",
       "Found " ++ toString (dictGet r.links "external" []).length ++ " external links"] ∧
    writesOf (demo_media_and_links (okExt [r]) (world0 "/w" [])).2.trace ≠ [] ∧
    writesOf (demo_screenshot_and_pdf (okExt [failedResult]) (world0 "/w" [])).2.trace
      ≠ [] ∧
    printsOf (demo_raw_html_and_file (okExt [failedResult]) (world0 "/w" [])).2.trace =
      ["\n=== 11. Process raw HTML and local files ===", "Success: False",
       "Raw HTML processing", "  Markdown: " ++ ("abc" : String).take 50,
       "/w" ++ "/tmp/sample.html", "Success: False", "Local file processing",
       "  Markdown: " ++ ("abc" : String).take 50,
       "Processsed both raw HTML and local file (" ++ ("/w" ++ "/tmp/sample.html") ++ ")"] := by
  refine ⟨?_, ?_, ?_, ?_, ?_, ?_, ?_, ?_, ?_, ?_, ?_⟩
  · simp [demo_basic_crawl, asyncWith, arunOp, okExt, basicLoop, pr, emit, world0,
      printsOf, hr, pyBool]
    rfl
  · simp [demo_basic_crawl, asyncWith, arunOp, okExt, basicLoop, pr, emit, world0,
      crawlEvents, hr]
  · simp [demo_parallel_crawl, asyncWith, arunManyOp, okExt, parallelLoop, pr, emit,
      world0, printsOf, hr]
    rfl
  · simp [demo_llm_structured_extraction_no_schema, env0, envGet, envLookup, asyncWith,
      arunOp, okExt, extractLoop, pr, emit, world0, printsOf, hr, pyBool]
  · simp [demo_llm_structured_extraction_no_schema, env0, envGet, envLookup, asyncWith,
      arunOp, okExt, extractLoop, pr, emit, world0, crawlEvents, hr]
  · simp [demo_css_structured_extraction_schema, cssExtract, existsF, readF, jsonLoadFile,
      asyncWith, arunOp, okExt, extractLoop, pr, emit, world0, printsOf, hr, pyBool,
      schemaFilePath, resolvePath, strPre, fsGet]
  · simp [demo_fit_markdown, asyncWith, arunOp, okExt, CrawlResultContainer.first,
      pr, emit, world0, printsOf, hm]
  · simp [demo_media_and_links, asyncWith, arunOp, okExt, mediaLoop,
      CrawlResultContainer.first, pr, emit, writeF, world0, printsOf]
  · simp [demo_media_and_links, asyncWith, arunOp, okExt, mediaLoop,
      CrawlResultContainer.first, pr, emit, writeF, world0, writesOf]
  · simp [demo_screenshot_and_pdf, asyncWith, arunOp, okExt, ssLoop, ssShot, ssPdf,
      b64decode, failedResult, CrawlResultContainer.first, pr, emit, writeF, world0,
      writesOf]
  · simp [demo_raw_html_and_file, asyncWith, arunOp, okExt, failedResult,
      CrawlResultContainer.first, pr, emit, writeF, removeF, fsGet_fsSet, world0,
      printsOf, pyBool, sampleFilePath]

/-- Witness for the amended C1 at a concrete failed result. -/
theorem failure_handled_by_single_branch_amended_witness :
    printsOf (demo_basic_crawl (okExt [failedResult]) (world0 "/w" [])).2.trace =
      ["\n=== 1. Basic crawling ===", "Result 1: " ++ failedResult.url, "Success: False",
       "Failed to crawwl the URL"] :=
  (failure_handled_by_single_branch_amended failedResult
    { raw_markdown := "abc", fit_markdown := "a" } rfl rfl).1

lemma strPre_screenshot (cur : String) (i : Nat) :
    strPre (cur ++ "/tmp/") (cur ++ "/tmp/example-screenshot-" ++ toString i ++ ".png")
      = true := by
  simp only [strPre, String.data_append, List.isPrefixOf_iff_prefix]
  refine List.IsPrefix.trans ?_ (List.prefix_append _ _)
  refine List.IsPrefix.trans ?_ (List.prefix_append _ _)
  rw [List.prefix_append_right_inj]
  decide

lemma strPre_pdf (cur : String) (i : Nat) :
    strPre (cur ++ "/tmp/") (cur ++ "/tmp/example-pdf-" ++ toString i ++ ".pdf") = true := by
  simp only [strPre, String.data_append, List.isPrefixOf_iff_prefix]
  refine List.IsPrefix.trans ?_ (List.prefix_append _ _)
  refine List.IsPrefix.trans ?_ (List.prefix_append _ _)
  rw [List.prefix_append_right_inj]
  decide

lemma strPre_sample (cur : String) :
    strPre (cur ++ "/tmp/") (cur ++ "/tmp/sample.html") = true := by
  simp only [strPre, String.data_append, List.isPrefixOf_iff_prefix]
  rw [List.prefix_append_right_inj]
  decide

lemma writesOf_cons_write (p : String) (c : FileContent) (t : List Effect) :
    writesOf (Effect.fileWrite p c :: t) = (p, c) :: writesOf t := by
  simp [writesOf]

lemma writesOf_cons_print (s : String) (t : List Effect) :
    writesOf (Effect.print s :: t) = writesOf t := by
  simp [writesOf]

lemma writesOf_nil : writesOf [] = [] := rfl

lemma ssShot_cwd (cur_dir : String) (i : Nat) (r : CrawlResult) (w : World) :
    (ssShot cur_dir i r w).cwd = w.cwd := by
  unfold ssShot
  cases hss : r.screenshot with
  | none => rfl
  | some s => cases hse : s == "" <;> simp [hse, pr, emit, writeF]

lemma ssPdf_cwd (cur_dir : String) (i : Nat) (r : CrawlResult) (w : World) :
    (ssPdf cur_dir i r w).cwd = w.cwd := by
  unfold ssPdf
  cases hpd : r.pdf with
  | none => rfl
  | some bs => cases hbs : bs.isEmpty <;> simp [hbs, pr, emit, writeF]

lemma ssShot_writes_tmp (cur : String) (hcur : strPre "/" cur = true) (i : Nat)
    (r : CrawlResult) (w : World) (hw : w.cwd = cur) :
    ((writesOf (ssShot cur i r w).trace).all fun x => strPre (cur ++ "/tmp/") x.1) =
    ((writesOf w.trace).all fun x => strPre (cur ++ "/tmp/") x.1) := by
  have habs : strPre "/" (cur ++ "/tmp/example-screenshot-" ++ toString i ++ ".png") = true :=
    strPre_append_right _ _ _ (strPre_append_right _ _ _ (strPre_append_right _ _ _ hcur))
  unfold ssShot
  cases hss : r.screenshot with
  | none => rfl
  | some s =>
    cases hse : s == ""
    · simp only [hse, Bool.false_eq_true, if_false, pr, emit, writeF, hw, resolvePath, habs,
        eq_self_iff_true, if_true, writesOf_append, writesOf_cons_write, writesOf_cons_print,
        List.all_append, List.all_cons, List.all_nil, writesOf_nil, strPre_screenshot,
        Bool.and_true, Bool.true_and]
    · simp [hse]

lemma ssPdf_writes_tmp (cur : String) (hcur : strPre "/" cur = true) (i : Nat)
    (r : CrawlResult) (w : World) (hw : w.cwd = cur) :
    ((writesOf (ssPdf cur i r w).trace).all fun x => strPre (cur ++ "/tmp/") x.1) =
    ((writesOf w.trace).all fun x => strPre (cur ++ "/tmp/") x.1) := by
  have habs : strPre "/" (cur ++ "/tmp/example-pdf-" ++ toString i ++ ".pdf") = true :=
    strPre_append_right _ _ _ (strPre_append_right _ _ _ (strPre_append_right _ _ _ hcur))
  unfold ssPdf
  cases hpd : r.pdf with
  | none => rfl
  | some bs =>
    cases hbs : bs.isEmpty
    · simp only [hbs, Bool.false_eq_true, if_false, pr, emit, writeF, hw, resolvePath, habs,
        eq_self_iff_true, if_true, writesOf_append, writesOf_cons_write, writesOf_cons_print,
        List.all_append, List.all_cons, List.all_nil, writesOf_nil, strPre_pdf,
        Bool.and_true, Bool.true_and]
    · simp [hbs]

lemma ssLoop_writes_tmp (c : CrawlResultContainer) (cur : String)
    (hcur : strPre "/" cur = true) :
    ∀ (i : Nat) (rs : List CrawlResult) (w : World), w.cwd = cur →
      ((writesOf ((ssLoop c cur i rs w).2.trace)).all
        fun x => strPre (cur ++ "/tmp/") x.1) =
      ((writesOf w.trace).all fun x => strPre (cur ++ "/tmp/") x.1) := by
  intro i rs
  induction rs generalizing i with
  | nil => intro w hw; rfl
  | cons r rs ih =>
    intro w hw
    simp only [ssLoop]
    cases hf : c.first with
    | error e => rfl
    | ok r0 =>
      have hw2 : (ssShot cur i r0 w).cwd = cur := by rw [ssShot_cwd]; exact hw
      have hw3 : (ssPdf cur i r0 (ssShot cur i r0 w)).cwd = cur := by rw [ssPdf_cwd]; exact hw2
      rw [ih (i + 1) _ hw3, ssPdf_writes_tmp cur hcur i r0 _ hw2,
        ssShot_writes_tmp cur hcur i r0 w hw]

lemma mediaChunks_writes_paths (cwd : String) (r : CrawlResult) :
    ∀ n, ((writesOf (mediaChunks cwd r n)).all
      fun x => (x.1 == cwd ++ "/" ++ "images.json") ||
               (x.1 == cwd ++ "/" ++ "links.json")) = true := by
  intro n
  induction n with
  | zero => rfl
  | succ n ih =>
    have h1 : strPre "/" "images.json" = false := by decide
    have h2 : strPre "/" "links.json" = false := by decide
    simp only [mediaChunks, writesOf_append, List.all_append, ih, Bool.and_true]
    simp [mediaChunk, writesOf, resolvePath, h1, h2]

/-- Counterexample to C4 as stated: the image-list and link-list JSON
files are written directly into the working directory (not under its tmp
subdirectory), and the generated schema JSON goes to the path obtained by
concatenating the working directory and "tmp/schema.json" with no
separator, which is not under the tmp subdirectory either. -/
theorem outputs_under_tmp_counterexample :
    writesOf (demo_media_and_links (okExt [sampleResult]) (world0 "/work" [])).2.trace =
      [("/work/images.json", FileContent.json (.arr [Json.str "i1"])),
       ("/work/links.json", FileContent.json (.obj
         [("internal", .arr [Json.str "l1"]), ("external", .arr [])]))] ∧
    strPre "/work/tmp/" "/work/images.json" = false ∧
    writesTo (demo_css_structured_extraction_schema env0 (okExt [sampleResult])
        (world0 "/work" [("/work/scrape.html", FileContent.text "<d>")])).2.trace
      "/worktmp/schema.json" = [.json genJson] ∧
    strPre "/work/tmp/" "/worktmp/schema.json" = false :=
  ⟨rfl, by decide, rfl, by decide⟩

/-- Amended C4: the screenshot PNG, the PDF, and the temporary HTML
sample are written under the cwd-relative tmp folder; the image-list and
link-list JSON files are written directly into the working directory, at
paths not under cwd/tmp; and the generated schema JSON is written to the
path cwd ++ "tmp/schema.json" (no separator), which is not under cwd/tmp
either. -/
theorem outputs_under_tmp_amended (env : Env) (ext : Crawl4ai) (cwd : String)
    (fs : List (String × FileContent)) (j : Json) (html token : String)
    (hcwd : strPre "/" cwd = true) :
    ((writesOf (demo_screenshot_and_pdf ext (world0 cwd fs)).2.trace).all
      fun x => strPre (cwd ++ "/tmp/") x.1) = true ∧
    ((writesOf (demo_raw_html_and_file ext (world0 cwd fs)).2.trace).all
      fun x => strPre (cwd ++ "/tmp/") x.1) = true ∧
    ((writesOf (demo_media_and_links ext (world0 cwd fs)).2.trace).all
      fun x => (x.1 == cwd ++ "/" ++ "images.json") ||
               (x.1 == cwd ++ "/" ++ "links.json")) = true ∧
    strPre (cwd ++ "/tmp/") (cwd ++ "/" ++ "images.json") = false ∧
    (fsGet fs (resolvePath cwd (schemaFilePath cwd)) = none →
      fsGet fs (resolvePath cwd "scrape.html") = some (.text html) →
      envLookup env "OPEN_ROUTER_KEY" = some token →
      ext.generate_schema html { provider := llmProvider, api_token := token } cssQuery
        = .ok j →
      writesOf (demo_css_structured_extraction_schema env ext (world0 cwd fs)).2.trace =
        [(cwd ++ "tmp/schema.json", FileContent.json j)]) ∧
    strPre (cwd ++ "/tmp/") (cwd ++ "tmp/schema.json") = false := by
  have hsamp0 : strPre "/" (cwd ++ "/tmp/sample.html") = true :=
    strPre_append_right _ _ _ hcwd
  refine ⟨?_, ?_, ?_, ?_, ?_, ?_⟩
  · simp only [demo_screenshot_and_pdf, asyncWith, arunOp, pr, emit, world0]
    cases h : ext.arun wikiAnteaterUrl ssRunConfig with
    | error e => rfl
    | ok c =>
      dsimp only
      rw [ssLoop_writes_tmp c cwd hcwd 0 c.results _ rfl]
      rfl
  · simp only [demo_raw_html_and_file, asyncWith, arunOp, CrawlResultContainer.first,
      writeF, removeF, pr, emit, world0, sampleFilePath]
    cases h1 : ext.arun ("raw://" ++ raw_html) rawBypassConfig with
    | error e =>
      simp [writesOf_append, writesOf, resolvePath, hsamp0, strPre_sample]
    | ok c1 =>
      dsimp only
      cases hr1 : c1.results with
      | nil => simp [writesOf_append, writesOf, resolvePath, hsamp0, strPre_sample]
      | cons r1 t1 =>
        dsimp only
        cases hm1 : r1.markdown with
        | none => simp [writesOf_append, writesOf, resolvePath, hsamp0, strPre_sample]
        | some md1 =>
          dsimp only
          cases h2 : ext.arun ("file://" ++ (cwd ++ "/tmp/sample.html"))
              fileBypassConfig with
          | error e => simp [writesOf_append, writesOf, resolvePath, hsamp0, strPre_sample]
          | ok c2 =>
            dsimp only
            cases hr2 : c2.results with
            | nil => simp [writesOf_append, writesOf, resolvePath, hsamp0, strPre_sample]
            | cons r2 t2 =>
              dsimp only
              cases hm2 : r2.markdown with
              | none =>
                simp [writesOf_append, writesOf, resolvePath, hsamp0, strPre_sample]
              | some md2 =>
                rw [fsGet_fsSet]
                simp [writesOf_append, writesOf, resolvePath, hsamp0, strPre_sample]
  · simp only [demo_media_and_links, asyncWith, arunOp, pr, emit, world0]
    cases h : ext.arun wikiGraphicsUrl defaultRunConfig with
    | error e => rfl
    | ok c =>
      dsimp only
      cases hr : c.results with
      | nil => rfl
      | cons r rs =>
        have hf : c.first = .ok r := by simp [CrawlResultContainer.first, hr]
        rw [(mediaLoop_run c r hf 0 (r :: rs) _).2.2]
        simp only [writesOf_append, List.all_append, mediaChunks_writes_paths,
          Bool.and_true]
        rfl
  · rw [String.append_assoc, strPre_cancel]
    decide
  · intro hex hs he hg
    have habs : strPre "/" (cwd ++ "tmp/schema.json") = true :=
      strPre_append_right _ _ _ hcwd
    simp only [schemaFilePath] at hex
    simp only [demo_css_structured_extraction_schema, cssExtract, asyncWith, arunOp,
      envGet, generateSchemaOp, existsF, readF, writeF, jsonLoadFile, fileText, pr, emit,
      world0, schemaFilePath, hex, hs, he, hg, Option.isSome_none, Bool.false_eq_true,
      if_false]
    cases h : ext.arun hackerNewsUrl (cssRunConfig j) with
    | error e => simp [writesOf_append, writesOf, resolvePath, habs]
    | ok c =>
      simp only [writesOf_append, extractLoop_writesOf]
      simp [writesOf, resolvePath, habs]
  · rw [strPre_cancel]
    decide

/-- Witness for the amended C4 at a concrete working directory. -/
theorem outputs_under_tmp_amended_witness :
    ((writesOf (demo_screenshot_and_pdf (okExt [sampleResult])
        (world0 "/work" [])).2.trace).all
      fun x => strPre ("/work" ++ "/tmp/") x.1) = true ∧
    strPre ("/work" ++ "/tmp/") ("/work" ++ "tmp/schema.json") = false :=
  ⟨(outputs_under_tmp_amended [] (okExt [sampleResult]) "/work" [] Json.null "x" "x"
      (by decide)).1,
   (outputs_under_tmp_amended [] (okExt [sampleResult]) "/work" [] Json.null "x" "x"
      (by decide)).2.2.2.2.2⟩
